import Mathlib

/-!
Verification of the facility-intelligence derivation layer.

The definitions below are a shallow embedding of the Python services in
src/backend/app/services (event_service.py, baseline_service.py,
readings_service.py, sensor_service.py, _registry.py).

Modelling conventions:
* timestamps are integer seconds (datetime subtraction and
  whole-second durations become integer subtraction);
* SQL result sets are Lean lists; a WHERE clause is a filter;
  aggregate functions (COUNT, AVG, MIN, MAX) are folds over the list,
  with AVG of an empty set being none (SQL NULL);
* the event-service functions consume the rows produced by their query,
  which is ordered by (sensor_id, timestamp);
* float arithmetic is idealised as exact rational arithmetic, with
  math.sqrt as Real.sqrt;
* Python round-half-to-even on p decimal places is pyRound / pyRoundR.
-/

/-- A row of the door_readings table (event_service.py queries
DoorReading ordered by (sensor_id, timestamp)). -/
structure DoorRow where
  sensor_id : String
  timestamp : ℤ
  is_open : Bool
deriving Repr, DecidableEq

/-- schemas/events.py DoorEvent. -/
structure DoorEvent where
  sensor_id : String
  opened_at : ℤ
  closed_at : Option ℤ
  duration_seconds : ℤ
deriving Repr, DecidableEq

/-- A row of the motion_readings table joined with Sensor.zone_id,
as fetched by get_presence_events. -/
structure PRow where
  sensor_id : String
  zone_id : String
  timestamp : ℤ
  motion_detected : Bool
deriving Repr, DecidableEq

/-- schemas/events.py PresenceEvent. -/
structure PresenceEvent where
  sensor_id : String
  zone_id : String
  started_at : ℤ
  ended_at : Option ℤ
  duration_seconds : ℤ
  is_safety_concern : Bool
deriving Repr, DecidableEq

/-- event_service.py: SAFETY_CONCERN_THRESHOLD_SECONDS = 600. -/
def SAFETY_CONCERN_THRESHOLD_SECONDS : ℤ := 600

/-- The "Handle any still-open event at end" epilogue of get_door_events
(also run when the loop switches sensors): if an event is open and a
sensor is current, emit a right-censored event with closed_at = None and
duration end - current_event_start. -/
def doorFlush (endT : ℤ) (cur : Option String) (evStart : Option ℤ) : List DoorEvent :=
  match cur, evStart with
  | some s, some o => [{ sensor_id := s, opened_at := o, closed_at := none,
                         duration_seconds := endT - o }]
  | _, _ => []

/-- The transition-detection body of the get_door_events loop: given the
current reading, the open-event marker and the previous is_open value,
return the events emitted at this reading and the new open-event marker. -/
def doorTrans (r : DoorRow) (evStart : Option ℤ) (prev : Option Bool) :
    List DoorEvent × Option ℤ :=
  match prev with
  | none => ([], if r.is_open then some r.timestamp else evStart)
  | some p =>
      if p = false ∧ r.is_open = true then ([], some r.timestamp)
      else if p = true ∧ r.is_open = false then
        match evStart with
        | some o => ([{ sensor_id := r.sensor_id, opened_at := o,
                        closed_at := some r.timestamp,
                        duration_seconds := r.timestamp - o }], none)
        | none => ([], none)
      else ([], evStart)

/-- The per-reading loop of get_door_events.  `cur` is
current_sensor_id, `evStart` is current_event_start, `prev` is
prev_is_open.  A reading for a different sensor first closes any open
event of the previous sensor and resets the state, exactly as in the
Python loop. -/
def doorLoop (endT : ℤ) (cur : Option String) (evStart : Option ℤ)
    (prev : Option Bool) : List DoorRow → List DoorEvent
  | [] => doorFlush endT cur evStart
  | r :: rest =>
      if cur = some r.sensor_id then
        let step := doorTrans r evStart prev
        step.1 ++ doorLoop endT cur step.2 (some r.is_open) rest
      else
        let step := doorTrans r none none
        doorFlush endT cur evStart ++ step.1 ++
          doorLoop endT (some r.sensor_id) step.2 (some r.is_open) rest

/-- event_service.get_door_events, applied to the rows its query
returns (door readings in [start, end], ordered by
(sensor_id, timestamp)); `endT` is the query-window end used for
right-censored durations. -/
def get_door_events (endT : ℤ) (readings : List DoorRow) : List DoorEvent :=
  doorLoop endT none none none readings

/-- The still-active-event epilogue of get_presence_events: emits a
right-censored presence event, subject to the min_duration filter, with
the safety-concern flag computed from the duration. -/
def presenceFlush (endT minDur : ℤ) (cur curZone : Option String)
    (evStart : Option ℤ) : List PresenceEvent :=
  match cur, evStart with
  | some s, some o =>
      let d := endT - o
      if minDur ≤ d then
        [{ sensor_id := s, zone_id := curZone.getD (""), started_at := o,
           ended_at := none, duration_seconds := d,
           is_safety_concern := decide (SAFETY_CONCERN_THRESHOLD_SECONDS ≤ d) }]
      else []
  | _, _ => []

/-- The transition-detection body of the get_presence_events loop. -/
def presenceTrans (minDur : ℤ) (r : PRow) (evStart : Option ℤ)
    (prev : Option Bool) : List PresenceEvent × Option ℤ :=
  match prev with
  | none => ([], if r.motion_detected then some r.timestamp else evStart)
  | some p =>
      if p = false ∧ r.motion_detected = true then ([], some r.timestamp)
      else if p = true ∧ r.motion_detected = false then
        match evStart with
        | some o =>
            let d := r.timestamp - o
            ((if minDur ≤ d then
                [{ sensor_id := r.sensor_id, zone_id := r.zone_id,
                   started_at := o, ended_at := some r.timestamp,
                   duration_seconds := d,
                   is_safety_concern :=
                     decide (SAFETY_CONCERN_THRESHOLD_SECONDS ≤ d) }]
              else []), none)
        | none => ([], none)
      else ([], evStart)

/-- The per-row loop of get_presence_events, with
current_sensor_id / current_zone_id / current_event_start / prev_motion
state and the sensor-switch reset of the Python loop. -/
def presenceLoop (endT minDur : ℤ) (cur curZone : Option String)
    (evStart : Option ℤ) (prev : Option Bool) : List PRow → List PresenceEvent
  | [] => presenceFlush endT minDur cur curZone evStart
  | r :: rest =>
      if cur = some r.sensor_id then
        let step := presenceTrans minDur r evStart prev
        step.1 ++ presenceLoop endT minDur cur curZone step.2 (some r.motion_detected) rest
      else
        let step := presenceTrans minDur r none none
        presenceFlush endT minDur cur curZone evStart ++ step.1 ++
          presenceLoop endT minDur (some r.sensor_id) (some r.zone_id) step.2
            (some r.motion_detected) rest

/-- event_service.get_presence_events, applied to the rows its query
returns (motion readings joined with zone, in [start, end], ordered by
(sensor_id, timestamp)). -/
def get_presence_events (endT minDur : ℤ) (rows : List PRow) : List PresenceEvent :=
  presenceLoop endT minDur none none none none rows

/-- models/sensor.py Sensor: immutable identity and thresholds. -/
structure SensorRow where
  id : String
  zone_id : String
  sensor_type : String
  label : String
  warning_threshold : Option ℚ
  critical_threshold : Option ℚ
deriving Repr, DecidableEq

/-- models/zone.py Zone (only the fields the services read). -/
structure ZoneRow where
  id : String
  name : String
deriving Repr, DecidableEq

/-- A reading row of an aggregation-capable table viewed through the
registry accessors (timestamp, value_column, secondary_column):
environmental rows carry humidity as `secondary`, air-quality rows
carry none. -/
structure NumRow where
  sensor_id : String
  timestamp : ℤ
  value : ℚ
  secondary : Option ℚ
deriving Repr, DecidableEq

/-- A boolean reading row (door_readings.is_open /
motion_readings.motion_detected). -/
structure BoolRow where
  sensor_id : String
  timestamp : ℤ
  flag : Bool
deriving Repr, DecidableEq

/-- The float(bool) coercion applied when a boolean column is read
numerically (readings_service raw path, sensor_service CAST). -/
def boolToNum (r : BoolRow) : NumRow :=
  { sensor_id := r.sensor_id, timestamp := r.timestamp,
    value := if r.flag then 1 else 0, secondary := none }

/-- The external store: four per-type time-series tables plus the two
reference tables.  Table rows are assumed stored in timestamp order per
sensor, as produced by the data generator. -/
structure Database where
  sensors : List SensorRow
  zones : List ZoneRow
  envReadings : List NumRow
  airReadings : List NumRow
  doorReadings : List BoolRow
  motionReadings : List BoolRow

/-- The _registry.py SensorTypeConfig: the registry descriptor.  `model`
and `value_column` are represented by the `numTable` dispatch below;
`hasSecondary` stands for `secondary_column is not None`. -/
structure SensorTypeConfig where
  unit : String
  hasSecondary : Bool
  secondary_unit : Option String
  format_value : Option (ℚ → String)
  supports_aggregation : Bool

/-- The _registry.py _format_door ("Open" if value else "Closed"). -/
def _format_door (value : ℚ) : String :=
  if value = 0 then ("Closed") else ("Open")

/-- The _registry.py _format_motion. -/
def _format_motion (value : ℚ) : String :=
  if value = 0 then ("No motion") else ("Motion detected")

/-- The _registry.py SENSOR_TYPE_REGISTRY as a lookup function
(dict.get). -/
def SENSOR_TYPE_REGISTRY : String → Option SensorTypeConfig := fun t =>
  if t = "environmental" then
    some { unit := "°C", hasSecondary := true, secondary_unit := some ("%"),
           format_value := none, supports_aggregation := true }
  else if t = "air_quality" then
    some { unit := "ppm", hasSecondary := false, secondary_unit := none,
           format_value := none, supports_aggregation := true }
  else if t = "door" then
    some { unit := "events", hasSecondary := false, secondary_unit := none,
           format_value := some _format_door, supports_aggregation := false }
  else if t = "motion" then
    some { unit := "events", hasSecondary := false, secondary_unit := none,
           format_value := some _format_motion, supports_aggregation := false }
  else none

/-- The table selected by `config.model` / `config.value_column` for a
sensor-type tag, with booleans coerced to 0/1 where the services read
them numerically. -/
def numTable (db : Database) : String → List NumRow
  | "environmental" => db.envReadings
  | "air_quality" => db.airReadings
  | "door" => db.doorReadings.map boolToNum
  | "motion" => db.motionReadings.map boolToNum
  | _ => []

/-- SQL COUNT over a selected value list. -/
def sqlCount (l : List ℚ) : ℕ := l.length

/-- SQL AVG: NULL on an empty selection, otherwise the arithmetic
mean. -/
def sqlAvg (l : List ℚ) : Option ℚ :=
  match l with
  | [] => none
  | _ => some (l.sum / l.length)

/-- SQL MIN. -/
def sqlMin (l : List ℚ) : Option ℚ := l.min?

/-- SQL MAX. -/
def sqlMax (l : List ℚ) : Option ℚ := l.max?

/-- strftime("%H", ts) for integer-second timestamps (hour of day). -/
def hourOfDay (t : ℤ) : ℤ := (t / 3600) % 24

/-- The WHERE clause shared by the baseline queries: rows of one sensor
within [startT, endT]. -/
def selectNumRows (db : Database) (t sid : String) (startT endT : ℤ) :
    List NumRow :=
  (numTable db t).filter
    (fun r => decide (r.sensor_id = sid ∧ startT ≤ r.timestamp ∧ r.timestamp ≤ endT))

/-- Python round(x, p): round half to even at p decimal places, on
exact rationals. -/
def roundHalfEven (x : ℚ) : ℤ :=
  let n := ⌊x⌋
  let frac := x - n
  if frac < 1/2 then n
  else if 1/2 < frac then n + 1
  else if n % 2 = 0 then n else n + 1

/-- round(x, p) for rationals. -/
def pyRound (p : ℕ) (x : ℚ) : ℚ := (roundHalfEven (x * 10 ^ p) : ℚ) / 10 ^ p

/-- round(x, p) on the reals (used after math.sqrt). -/
noncomputable def roundHalfEvenR (x : ℝ) : ℤ :=
  let n := ⌊x⌋
  let frac := x - n
  if frac < 1/2 then n
  else if 1/2 < frac then n + 1
  else if n % 2 = 0 then n else n + 1

/-- round(x, p) on the reals. -/
noncomputable def pyRoundR (p : ℕ) (x : ℝ) : ℝ :=
  (roundHalfEvenR (x * 10 ^ p) : ℝ) / 10 ^ p

/-- schemas/events.py SensorBaseline (std_dev is real-valued because it
comes out of math.sqrt). -/
structure SensorBaseline where
  sensor_id : String
  mean : ℚ
  std_dev : ℝ
  min : ℚ
  max : ℚ
  unit : String
  sample_count : ℕ
  period_hours : ℤ

/-- baseline_service._compute_std_dev: a second query with the same
WHERE clause computes AVG((value - mean)^2); None or negative variance
yields 0.0, otherwise sqrt(variance). -/
noncomputable def _compute_std_dev (db : Database) (t sid : String)
    (startT endT : ℤ) (mean : ℚ) : ℝ :=
  match sqlAvg ((selectNumRows db t sid startT endT).map
      (fun r => (r.value - mean) ^ 2)) with
  | none => 0
  | some v => if v < 0 then 0 else Real.sqrt (v : ℝ)

/-- baseline_service.get_sensor_baseline.  `now` is datetime.now();
the trailing window is [now - hours*3600, now].  Mirrors the Python
guard order: hours <= 0, unknown sensor, unknown/non-aggregating type,
then count == 0 or NULL average. -/
noncomputable def get_sensor_baseline (db : Database) (now : ℤ)
    (sensor_id : String) (hours : ℤ) : Option SensorBaseline :=
  if hours ≤ 0 then none
  else
    match db.sensors.find? (fun s => decide (s.id = sensor_id)) with
    | none => none
    | some sensor =>
      match SENSOR_TYPE_REGISTRY sensor.sensor_type with
      | none => none
      | some config =>
        if config.supports_aggregation = false then none
        else
          let end_time := now
          let start_time := end_time - 3600 * hours
          let rows := selectNumRows db sensor.sensor_type sensor_id start_time end_time
          let vals := rows.map (fun r => r.value)
          match sqlAvg vals with
          | none => none
          | some avg =>
            if sqlCount vals = 0 then none
            else
              let std_dev :=
                _compute_std_dev db sensor.sensor_type sensor_id start_time end_time avg
              let precision := if config.unit = "°C" then 2 else 1
              some { sensor_id := sensor_id,
                     mean := pyRound precision avg,
                     std_dev := pyRoundR precision std_dev,
                     -- count is nonzero here, so min/max are present;
                     -- getD 0 is never taken
                     min := pyRound precision ((sqlMin vals).getD 0),
                     max := pyRound precision ((sqlMax vals).getD 0),
                     unit := config.unit,
                     sample_count := sqlCount vals,
                     period_hours := hours }

/-- schemas/events.py HourlyBaseline. -/
structure HourlyBaseline where
  hour : ℕ
  mean : ℚ
  std_dev : ℝ
  sample_count : ℕ

/-- baseline_service.get_hourly_baselines: days <= 0 gives [], unknown
sensor gives [], unknown or non-aggregating type gives 24 zero entries;
otherwise one entry per hour 0..23, aggregating the rows whose
hour-of-day matches across the trailing days window (GROUP BY
strftime("%H", ...)), with the window-function variance query and the
variance > 0 guard of the Python code. -/
noncomputable def get_hourly_baselines (db : Database) (now : ℤ)
    (sensor_id : String) (days : ℤ) : List HourlyBaseline :=
  if days ≤ 0 then []
  else
    match db.sensors.find? (fun s => decide (s.id = sensor_id)) with
    | none => []
    | some sensor =>
      match SENSOR_TYPE_REGISTRY sensor.sensor_type with
      | none =>
        (List.range 24).map
          (fun h => { hour := h, mean := 0, std_dev := 0, sample_count := 0 })
      | some config =>
        if config.supports_aggregation = false then
          (List.range 24).map
            (fun h => { hour := h, mean := 0, std_dev := 0, sample_count := 0 })
        else
          let end_time := now
          let start_time := end_time - 86400 * days
          let rows := selectNumRows db sensor.sensor_type sensor_id start_time end_time
          let precision := if config.unit = "°C" then 2 else 1
          (List.range 24).map (fun (h : ℕ) =>
            let grp := rows.filter (fun r => decide (hourOfDay r.timestamp = (h : ℤ)))
            match sqlAvg (grp.map (fun r => r.value)) with
            | none => { hour := h, mean := 0, std_dev := 0, sample_count := 0 }
            | some avg =>
              let variance := (sqlAvg (grp.map (fun r => (r.value - avg) ^ 2))).getD 0
              let std : ℝ := if 0 < variance then Real.sqrt (variance : ℝ) else 0
              { hour := h, mean := pyRound precision avg,
                std_dev := pyRoundR precision std,
                sample_count := grp.length })

/-- Spec-side arithmetic mean of a sample set. -/
def arithMean (l : List ℚ) : ℚ := l.sum / l.length

/-- Spec-side population variance: mean((x - mean)^2) over the same
sample set. -/
def popVariance (l : List ℚ) : ℚ :=
  ((l.map (fun x => (x - arithMean l) ^ 2)).sum) / l.length

/-- Spec-side population standard deviation sqrt(mean((x - mean)^2)). -/
noncomputable def popStdDev (l : List ℚ) : ℝ :=
  Real.sqrt ((popVariance l : ℚ) : ℝ)

/-- sensor_service.compute_status: no warning threshold means normal;
otherwise strictly-greater-than comparisons against the critical and
warning thresholds, in that order.  Numeric-to-string rendering in the
status text is abstracted as toString. -/
def compute_status (value : ℚ)
    (warning_threshold critical_threshold : Option ℚ) : String × String :=
  match warning_threshold with
  | none => ("normal", "Normal")
  | some w =>
    let is_warning := decide (w < value)
    let is_critical :=
      match critical_threshold with
      | some c => decide (c < value)
      | none => false
    if is_critical then ("critical", "Critical")
    else if is_warning then
      if w < 0 then ("warning", "Warning — above " ++ toString w ++ "°C target")
      else ("warning", "Warning")
    else ("normal", "Normal")

/-- schemas/events.py ReadingPoint. -/
structure ReadingPoint where
  timestamp : ℤ
  value : ℚ
  humidity : Option ℚ
deriving Repr, DecidableEq

/-- schemas/events.py ReadingsResponse. -/
structure ReadingsResponse where
  sensor_id : String
  sensor_type : String
  interval : String
  readings : List ReadingPoint
deriving Repr, DecidableEq

/-- readings_service._get_raw_readings: every stored sample of the
sensor in [start, end] in timestamp order, values passed through (the
boolean-to-float coercion lives in numTable), humidity only when the
type has a secondary column. -/
def _get_raw_readings (db : Database) (sensor : SensorRow)
    (config : SensorTypeConfig) (start endT : ℤ) : List ReadingPoint :=
  (selectNumRows db sensor.sensor_type sensor.id start endT).map (fun r =>
    { timestamp := r.timestamp, value := r.value,
      humidity := if config.hasSecondary then r.secondary else none })

/-- Python dict insertion-order keys: first occurrence of each element,
in order (used for GROUP BY buckets read back in order, and for
sensors_by_type). -/
def dictKeys {α : Type} [DecidableEq α] (l : List α) : List α :=
  l.foldl (fun acc x => if x ∈ acc then acc else acc ++ [x]) []

/-- readings_service._get_aggregated_readings: GROUP BY the
strftime-truncated bucket (bucket start timestamp = floor division by
the bucket length); AVG for aggregating types, SUM(CAST(...)) for
boolean types; rows with a NULL aggregate are skipped; values rounded
to 2 decimal places. -/
def _get_aggregated_readings (db : Database) (sensor : SensorRow)
    (config : SensorTypeConfig) (start endT bucketSecs : ℤ) : List ReadingPoint :=
  let rows := selectNumRows db sensor.sensor_type sensor.id start endT
  let buckets := dictKeys (rows.map (fun r => r.timestamp / bucketSecs * bucketSecs))
  buckets.filterMap (fun b =>
    let grp := rows.filter (fun r => decide (r.timestamp / bucketSecs * bucketSecs = b))
    let v? : Option ℚ :=
      if config.supports_aggregation then sqlAvg (grp.map (fun r => r.value))
      else
        match grp with
        | [] => none
        | _ => some ((grp.map (fun r => r.value)).sum)
    match v? with
    | none => none
    | some v => some { timestamp := b, value := pyRound 2 v, humidity := none })

/-- readings_service.get_sensor_readings: not-found for an unknown
sensor id or a sensor type without a registry entry, then dispatch on
the interval ("raw" / "1h" / "1d", any other value behaving as raw). -/
def get_sensor_readings (db : Database) (sensor_id : String)
    (start endT : ℤ) (interval : String) : Option ReadingsResponse :=
  match db.sensors.find? (fun s => decide (s.id = sensor_id)) with
  | none => none
  | some sensor =>
    match SENSOR_TYPE_REGISTRY sensor.sensor_type with
    | none => none
    | some config =>
      let readings :=
        if interval = "raw" then _get_raw_readings db sensor config start endT
        else if interval = "1h" then
          _get_aggregated_readings db sensor config start endT 3600
        else if interval = "1d" then
          _get_aggregated_readings db sensor config start endT 86400
        else _get_raw_readings db sensor config start endT
      some { sensor_id := sensor_id, sensor_type := sensor.sensor_type,
             interval := interval, readings := readings }

/-- sensor_service.py TREND_HOURS. -/
def TREND_HOURS : ℕ := 24

/-- Python int(): truncation toward zero on rationals. -/
def truncQ (x : ℚ) : ℤ := if x < 0 then -(⌊-x⌋) else ⌊x⌋

/-- sensor_service.format_reading_value. -/
def format_reading_value (config : SensorTypeConfig) (value : ℚ) : String :=
  match config.format_value with
  | some f => f value
  | none =>
    if config.unit = "°C" then toString value ++ "°C"
    else if config.unit = "ppm" then toString (truncQ value)
    else toString value

/-- sensor_service.format_reading_unit. -/
def format_reading_unit (config : SensorTypeConfig)
    (secondary_value : Option ℚ) : Option String :=
  match config.hasSecondary, secondary_value with
  | true, some sv => some ("/ " ++ toString (truncQ sv) ++ "%")
  | _, _ => if config.unit = "ppm" then some ("ppm") else none

/-- The most recent row of one sensor (the rn = 1 row of the
partitioned row_number window; per-sensor timestamps are unique in
well-formed data). -/
def latestRowFor (rows : List NumRow) (sid : String) : Option NumRow :=
  (rows.filter (fun r => decide (r.sensor_id = sid))).foldl
    (fun acc r =>
      match acc with
      | none => some r
      | some a => if a.timestamp < r.timestamp then some r else some a)
    none

/-- sensor_service._get_latest_readings_batch: groups sensors by type,
skips types without a registry entry, and issues ONE window-function
query per remaining type (the secondary-column variant is still a
single query).  Returns the sensor_id -> (value, secondary, timestamp)
entries together with the number of queries issued. -/
def latestBatchStep (db : Database) (sensors : List SensorRow)
    (acc : List (String × ℚ × Option ℚ × ℤ) × ℕ) (t : String) :
    List (String × ℚ × Option ℚ × ℤ) × ℕ :=
  match SENSOR_TYPE_REGISTRY t with
  | none => acc
  | some config =>
    let sensor_ids :=
      (sensors.filter (fun s => decide (s.sensor_type = t))).map (fun s => s.id)
    let rows := numTable db t
    let entries := sensor_ids.filterMap (fun sid =>
      (latestRowFor rows sid).map (fun r =>
        (sid, r.value, (if config.hasSecondary then r.secondary else none),
          r.timestamp)))
    (acc.1 ++ entries, acc.2 + 1)

def _get_latest_readings_batch (db : Database) (sensors : List SensorRow) :
    List (String × ℚ × Option ℚ × ℤ) × ℕ :=
  (dictKeys (sensors.map (fun s => s.sensor_type))).foldl
    (latestBatchStep db sensors) ([], 0)

/-- sensor_service._get_24h_trends_batch: every sensor starts with a
zero-filled 24-entry trend; for each type with a registry entry ONE
grouped query fetches hourly buckets for all its sensors at once
(lower-bounded at 24h before the earliest per-sensor end time), and the
per-sensor trend reads its own 24 hour buckets back, 0 for missing
buckets, averages rounded to 1 decimal for aggregating types and
integer event counts otherwise.  Returns the trends with the number of
queries issued. -/
def trendsBatchStep (db : Database) (now : ℤ) (sensors : List SensorRow)
    (end_times : List (String × ℤ)) (acc : List (String × List ℚ) × ℕ)
    (t : String) : List (String × List ℚ) × ℕ :=
  match SENSOR_TYPE_REGISTRY t with
  | none => acc
  | some config =>
    let sensor_ids :=
      (sensors.filter (fun s => decide (s.sensor_type = t))).map (fun s => s.id)
    let min_end :=
      ((sensor_ids.map (fun sid => (end_times.lookup sid).getD now)).min?).getD now
    let start_time := min_end - 3600 * TREND_HOURS
    let rows := (numTable db t).filter (fun r =>
      decide (r.sensor_id ∈ sensor_ids ∧ start_time ≤ r.timestamp))
    let entries := sensor_ids.map (fun sid =>
      let end_time := (end_times.lookup sid).getD now
      let sensor_start := end_time - 3600 * TREND_HOURS
      (sid, (List.range TREND_HOURS).map (fun hour_offset =>
        let bucket := (sensor_start + 3600 * hour_offset) / 3600
        let grp := rows.filter (fun r =>
          decide (r.sensor_id = sid ∧ r.timestamp / 3600 = bucket))
        if config.supports_aggregation then
          pyRound 1 ((sqlAvg (grp.map (fun r => r.value))).getD 0)
        else
          (grp.map (fun r => r.value)).sum)))
    (acc.1.map (fun p =>
      match entries.lookup p.1 with
      | some tr => (p.1, tr)
      | none => p), acc.2 + 1)

def _get_24h_trends_batch (db : Database) (now : ℤ) (sensors : List SensorRow)
    (end_times : List (String × ℤ)) : List (String × List ℚ) × ℕ :=
  let base := sensors.map (fun s => (s.id, List.replicate TREND_HOURS (0 : ℚ)))
  (dictKeys (sensors.map (fun s => s.sensor_type))).foldl
    (trendsBatchStep db now sensors end_times) (base, 0)

/-- schemas/sensor.py SensorStats. -/
structure SensorStats where
  min : ℚ
  max : ℚ
  avg : ℚ
  unit : String
deriving Repr, DecidableEq

/-- sensor_service._get_24h_stats_batch: fixed placeholder stats for
non-aggregating types (no query), otherwise ONE grouped min/max/avg
query per type with zero-filled defaults for sensors without rows.
Returns the stats with the number of queries issued. -/
def statsBatchStep (db : Database) (now : ℤ) (sensors : List SensorRow)
    (end_times : List (String × ℤ)) (acc : List (String × SensorStats) × ℕ)
    (t : String) : List (String × SensorStats) × ℕ :=
  match SENSOR_TYPE_REGISTRY t with
  | none => acc
  | some config =>
    let sensor_ids :=
      (sensors.filter (fun s => decide (s.sensor_type = t))).map (fun s => s.id)
    if config.supports_aggregation = false then
      (acc.1 ++ sensor_ids.map (fun sid =>
        (sid, { min := 0, max := 1, avg := 1/2, unit := "events" })), acc.2)
    else
      let min_end :=
        ((sensor_ids.map (fun sid => (end_times.lookup sid).getD now)).min?).getD now
      let start_time := min_end - 3600 * TREND_HOURS
      let entries := sensor_ids.map (fun sid =>
        let vals := ((numTable db t).filter (fun r =>
          decide (r.sensor_id = sid ∧ start_time ≤ r.timestamp))).map
            (fun r => r.value)
        let precision := if config.unit = "°C" then 1 else 0
        match vals with
        | [] => (sid, { min := 0, max := 0, avg := 0, unit := config.unit })
        | _ => (sid,
            { min := pyRound precision ((sqlMin vals).getD 0),
              max := pyRound precision ((sqlMax vals).getD 0),
              avg := pyRound precision ((sqlAvg vals).getD 0),
              unit := config.unit }))
      (acc.1 ++ entries, acc.2 + 1)

def _get_24h_stats_batch (db : Database) (now : ℤ) (sensors : List SensorRow)
    (end_times : List (String × ℤ)) : List (String × SensorStats) × ℕ :=
  (dictKeys (sensors.map (fun s => s.sensor_type))).foldl
    (statsBatchStep db now sensors end_times) ([], 0)

/-- schemas/sensor.py SensorReading (raw_values only carries the door
isOpen flag). -/
structure SensorReadingOut where
  value : String
  unit : Option String
  status : String
  status_text : String
  raw_values : Option Bool
deriving Repr, DecidableEq

/-- schemas/sensor.py SensorConfig; thresholds is (warning, critical)
when at least one is configured. -/
structure SensorConfigOut where
  id : String
  sensor_type : String
  zone : String
  label : String
  reading : SensorReadingOut
  trend : List ℚ
  stats : SensorStats
  thresholds : Option (Option ℚ × Option ℚ)
deriving Repr, DecidableEq

/-- sensor_service._build_sensor_config: the
raise ValueError("Unknown sensor type") branch is modelled as a none
result; every other path produces a record. -/
def _build_sensor_config (sensor : SensorRow) (zone : ZoneRow)
    (latest : ℚ × Option ℚ × ℤ) (trend : List ℚ) (stats : SensorStats) :
    Option SensorConfigOut :=
  match SENSOR_TYPE_REGISTRY sensor.sensor_type with
  | none => none
  | some config =>
    let value := latest.1
    let secondary_value := latest.2.1
    let st := compute_status value sensor.warning_threshold sensor.critical_threshold
    let raw_values :=
      if sensor.sensor_type = "door" then some (decide (value ≠ 0)) else none
    let thresholds :=
      if sensor.warning_threshold.isSome ∨ sensor.critical_threshold.isSome then
        some (sensor.warning_threshold, sensor.critical_threshold)
      else none
    some { id := sensor.id, sensor_type := sensor.sensor_type, zone := zone.name,
           label := sensor.label,
           reading := { value := format_reading_value config value,
                        unit := format_reading_unit config secondary_value,
                        status := st.1, status_text := st.2,
                        raw_values := raw_values },
           trend := trend, stats := stats, thresholds := thresholds }

/-- get_all_sensors / get_sensors_by_zone: the sensors kept after the
batched latest-reading fetch ([s for s in sensors if s.id in
latest_readings]). -/
def sensors_with_readings (db : Database) (sensors : List SensorRow) :
    List SensorRow :=
  sensors.filter (fun s =>
    (((_get_latest_readings_batch db sensors).1).lookup s.id).isSome)

/-- A small concrete store used by the witnesses: one environmental
sensor with two readings and one motion sensor with one reading. -/
def sampleDb : Database :=
  { sensors := [
      { id := "t1", zone_id := "z1", sensor_type := "environmental",
        label := "Temp", warning_threshold := some (-18),
        critical_threshold := some (-10) },
      { id := "m1", zone_id := "z1", sensor_type := "motion",
        label := "Motion", warning_threshold := none,
        critical_threshold := none }],
    zones := [{ id := "z1", name := "Cold Room" }],
    envReadings := [
      { sensor_id := "t1", timestamp := 10, value := 1, secondary := some 50 },
      { sensor_id := "t1", timestamp := 20, value := 3, secondary := some 55 }],
    airReadings := [],
    doorReadings := [],
    motionReadings := [{ sensor_id := "m1", timestamp := 30, flag := true }] }

/-- Shape of the rows consumed by the door-event loop: the SQL query
orders by (sensor_id, timestamp), and well-formed data has strictly
increasing per-sensor timestamps. -/
abbrev doorRowsSorted (rs : List DoorRow) : Prop :=
  List.Pairwise (fun a b : DoorRow =>
    a.sensor_id < b.sensor_id ∨
      (a.sensor_id = b.sensor_id ∧ a.timestamp < b.timestamp)) rs

/-- Shape of the rows consumed by the presence-event loop. -/
abbrev prowsSorted (rs : List PRow) : Prop :=
  List.Pairwise (fun a b : PRow =>
    a.sensor_id < b.sensor_id ∨
      (a.sensor_id = b.sensor_id ∧ a.timestamp < b.timestamp)) rs

/-- Well-formedness of a single emitted door event: a non-null close is
not before the open, and the duration is non-negative. -/
abbrev doorEventOk (e : DoorEvent) : Prop :=
  (∀ c, e.closed_at = some c → e.opened_at ≤ c) ∧ 0 ≤ e.duration_seconds

/-- Two door events of the same sensor are chronologically ordered and
non-overlapping: the earlier one is closed no later than the later one
opens. -/
abbrev doorNonOverlap (a b : DoorEvent) : Prop :=
  a.sensor_id = b.sensor_id →
    (∃ c, a.closed_at = some c ∧ c ≤ b.opened_at) ∧ a.opened_at ≤ b.opened_at

/-- Well-formedness of a single emitted presence event. -/
abbrev presenceEventOk (e : PresenceEvent) : Prop :=
  (∀ c, e.ended_at = some c → e.started_at ≤ c) ∧ 0 ≤ e.duration_seconds

/-- Two presence events of the same sensor are chronologically ordered
and non-overlapping. -/
abbrev presenceNonOverlap (a b : PresenceEvent) : Prop :=
  a.sensor_id = b.sensor_id →
    (∃ c, a.ended_at = some c ∧ c ≤ b.started_at) ∧ a.started_at ≤ b.started_at

/-- C2: for a door sensor whose in-window samples are exactly
closed@t0, open@t1, closed@t2 with strictly increasing timestamps,
get_door_events returns exactly one event, opened at t1, closed at t2,
with duration t2 - t1; and in general the loop body opens an event at a
false-to-true transition's timestamp and closes the open event at a
true-to-false transition's timestamp. -/
theorem claim_C2_door_round_trip (endT : ℤ) (s : String) (t0 t1 t2 : ℤ)
    (h01 : t0 < t1) (h12 : t1 < t2) :
    get_door_events endT
        [⟨s, t0, false⟩, ⟨s, t1, true⟩, ⟨s, t2, false⟩] =
      [{ sensor_id := s, opened_at := t1, closed_at := some t2,
         duration_seconds := t2 - t1 }] ∧
    (∀ (r : DoorRow) (evStart : Option ℤ), r.is_open = true →
      doorTrans r evStart (some false) = ([], some r.timestamp)) ∧
    (∀ (r : DoorRow) (o : ℤ), r.is_open = false →
      doorTrans r (some o) (some true) =
        ([{ sensor_id := r.sensor_id, opened_at := o,
            closed_at := some r.timestamp,
            duration_seconds := r.timestamp - o }], none)) := by
  refine ⟨?_, ?_, ?_⟩
  · simp [get_door_events, doorLoop, doorTrans, doorFlush]
  · intro r evStart hr
    simp [doorTrans, hr]
  · intro r o hr
    simp [doorTrans, hr]

/-- Witness for C2 at a concrete input. -/
theorem claim_C2_witness :
    (0 : ℤ) < 10 ∧ (10 : ℤ) < 25 ∧
    get_door_events 100 [⟨"d1", 0, false⟩, ⟨"d1", 10, true⟩, ⟨"d1", 25, false⟩] =
      [{ sensor_id := "d1", opened_at := 10, closed_at := some 25,
         duration_seconds := 15 }] := by
  refine ⟨by decide, by decide, ?_⟩
  have h := claim_C2_door_round_trip 100 "d1" 0 10 25 (by decide) (by decide)
  simpa using h.1

lemma presenceFlush_safety (endT minDur : ℤ) (cur curZone : Option String)
    (evStart : Option ℤ) :
    ∀ e ∈ presenceFlush endT minDur cur curZone evStart,
      e.is_safety_concern = decide (SAFETY_CONCERN_THRESHOLD_SECONDS ≤ e.duration_seconds) := by
  intro e he
  unfold presenceFlush at he
  cases cur with
  | none => simp at he
  | some s =>
    cases evStart with
    | none => simp at he
    | some o =>
      simp only at he
      split at he
      · simp at he
        subst he
        rfl
      · simp at he

lemma presenceTrans_safety (minDur : ℤ) (r : PRow) (evStart : Option ℤ)
    (prev : Option Bool) :
    ∀ e ∈ (presenceTrans minDur r evStart prev).1,
      e.is_safety_concern = decide (SAFETY_CONCERN_THRESHOLD_SECONDS ≤ e.duration_seconds) := by
  intro e he
  unfold presenceTrans at he
  cases prev with
  | none => simp at he
  | some p =>
    simp only at he
    split at he
    · simp at he
    · split at he
      · cases evStart with
        | none => simp at he
        | some o =>
          simp only at he
          split at he
          · simp at he
            subst he
            rfl
          · simp at he
      · simp at he

lemma presenceLoop_safety (endT minDur : ℤ) :
    ∀ (rs : List PRow) (cur curZone : Option String) (evStart : Option ℤ)
      (prev : Option Bool),
      ∀ e ∈ presenceLoop endT minDur cur curZone evStart prev rs,
        e.is_safety_concern = decide (SAFETY_CONCERN_THRESHOLD_SECONDS ≤ e.duration_seconds) := by
  intro rs
  induction rs with
  | nil =>
    intro cur curZone evStart prev e he
    exact presenceFlush_safety endT minDur cur curZone evStart e he
  | cons r rest ih =>
    intro cur curZone evStart prev e he
    rw [presenceLoop] at he
    split at he
    · rcases List.mem_append.mp he with h | h
      · exact presenceTrans_safety minDur r evStart prev e h
      · exact ih _ _ _ _ e h
    · rcases List.mem_append.mp he with h | h
      · rcases List.mem_append.mp h with h2 | h2
        · exact presenceFlush_safety endT minDur cur curZone evStart e h2
        · exact presenceTrans_safety minDur r none none e h2
      · exact ih _ _ _ _ e h

/-- C4: every presence event is flagged is_safety_concern exactly when
its duration is at least SAFETY_CONCERN_THRESHOLD_SECONDS = 600, for
every query window and every min_duration parameter (the threshold is a
fixed constant, not a caller parameter); in particular an event of
exactly 600 seconds is flagged and one of 599 seconds is not. -/
theorem claim_C4_safety_flag (endT minDur : ℤ) (rows : List PRow) :
    (∀ e ∈ get_presence_events endT minDur rows,
      e.is_safety_concern = decide (SAFETY_CONCERN_THRESHOLD_SECONDS ≤ e.duration_seconds)) ∧
    SAFETY_CONCERN_THRESHOLD_SECONDS = 600 ∧
    (∀ e ∈ get_presence_events endT minDur rows,
      e.duration_seconds = 600 → e.is_safety_concern = true) ∧
    (∀ e ∈ get_presence_events endT minDur rows,
      e.duration_seconds = 599 → e.is_safety_concern = false) := by
  refine ⟨?_, rfl, ?_, ?_⟩
  · intro e he
    exact presenceLoop_safety endT minDur rows none none none none e he
  · intro e he hd
    rw [presenceLoop_safety endT minDur rows none none none none e he, hd]
    rfl
  · intro e he hd
    rw [presenceLoop_safety endT minDur rows none none none none e he, hd]
    rfl

/-- Witness for C4: a concrete presence window of exactly 600 seconds
is flagged, one of 599 seconds is not. -/
theorem claim_C4_witness :
    ((⟨"m1", "z1", 0, some 600, 600, true⟩ : PresenceEvent) ∈
        get_presence_events 1000 0
          [⟨"m1", "z1", 0, true⟩, ⟨"m1", "z1", 600, false⟩]) ∧
    ((⟨"m1", "z1", 0, some 599, 599, false⟩ : PresenceEvent) ∈
        get_presence_events 1000 0
          [⟨"m1", "z1", 0, true⟩, ⟨"m1", "z1", 599, false⟩]) ∧
    (true : Bool) = decide (SAFETY_CONCERN_THRESHOLD_SECONDS ≤ (600:ℤ)) ∧
    (false : Bool) = decide (SAFETY_CONCERN_THRESHOLD_SECONDS ≤ (599:ℤ)) := by
  have h6 : ((⟨"m1", "z1", 0, some 600, 600, true⟩ : PresenceEvent) ∈
        get_presence_events 1000 0
          [⟨"m1", "z1", 0, true⟩, ⟨"m1", "z1", 600, false⟩]) := by decide
  have h5 : ((⟨"m1", "z1", 0, some 599, 599, false⟩ : PresenceEvent) ∈
        get_presence_events 1000 0
          [⟨"m1", "z1", 0, true⟩, ⟨"m1", "z1", 599, false⟩]) := by decide
  refine ⟨h6, h5, ?_, ?_⟩
  · exact (claim_C4_safety_flag 1000 0
      [⟨"m1", "z1", 0, true⟩, ⟨"m1", "z1", 600, false⟩]).1 _ h6
  · exact (claim_C4_safety_flag 1000 0
      [⟨"m1", "z1", 0, true⟩, ⟨"m1", "z1", 599, false⟩]).1 _ h5

lemma presenceTrans_snd_minDur (minDur : ℤ) (r : PRow) (evStart : Option ℤ)
    (prev : Option Bool) :
    (presenceTrans minDur r evStart prev).2 = (presenceTrans 0 r evStart prev).2 := by
  unfold presenceTrans
  cases prev with
  | none => rfl
  | some p =>
    by_cases h1 : p = false ∧ r.motion_detected = true
    · simp [h1]
    · by_cases h2 : p = true ∧ r.motion_detected = false
      · cases evStart <;> simp [h1, h2]
      · simp [h1, h2]

lemma presenceTrans_fst_minDur (minDur : ℤ) (hmd : 0 ≤ minDur) (r : PRow)
    (evStart : Option ℤ) (prev : Option Bool) :
    (presenceTrans minDur r evStart prev).1 =
      (presenceTrans 0 r evStart prev).1.filter
        (fun e => decide (minDur ≤ e.duration_seconds)) := by
  unfold presenceTrans
  cases prev with
  | none => rfl
  | some p =>
    by_cases h1 : p = false ∧ r.motion_detected = true
    · simp [h1]
    · by_cases h2 : p = true ∧ r.motion_detected = false
      · cases evStart with
        | none => simp [h1, h2]
        | some o =>
          simp only [h1, h2, if_false, if_true]
          by_cases h3 : (0:ℤ) ≤ r.timestamp - o
          · by_cases h4 : minDur ≤ r.timestamp - o <;>
              simp [h3, h4, List.filter]
          · have h4 : ¬ minDur ≤ r.timestamp - o := by omega
            simp [h3, h4]
      · simp [h1, h2]

lemma presenceFlush_minDur (endT minDur : ℤ) (hmd : 0 ≤ minDur)
    (cur curZone : Option String) (evStart : Option ℤ) :
    presenceFlush endT minDur cur curZone evStart =
      (presenceFlush endT 0 cur curZone evStart).filter
        (fun e => decide (minDur ≤ e.duration_seconds)) := by
  unfold presenceFlush
  cases cur with
  | none => rfl
  | some s =>
    cases evStart with
    | none => rfl
    | some o =>
      simp only
      by_cases h3 : (0:ℤ) ≤ endT - o
      · by_cases h4 : minDur ≤ endT - o <;> simp [h3, h4, List.filter]
      · have h4 : ¬ minDur ≤ endT - o := by omega
        simp [h3, h4]

lemma presenceLoop_minDur (endT minDur : ℤ) (hmd : 0 ≤ minDur) :
    ∀ (rs : List PRow) (cur curZone : Option String) (evStart : Option ℤ)
      (prev : Option Bool),
      presenceLoop endT minDur cur curZone evStart prev rs =
        (presenceLoop endT 0 cur curZone evStart prev rs).filter
          (fun e => decide (minDur ≤ e.duration_seconds)) := by
  intro rs
  induction rs with
  | nil =>
    intro cur curZone evStart prev
    exact presenceFlush_minDur endT minDur hmd cur curZone evStart
  | cons r rest ih =>
    intro cur curZone evStart prev
    rw [presenceLoop, presenceLoop]
    split
    · dsimp only
      rw [List.filter_append, ← presenceTrans_fst_minDur minDur hmd,
        presenceTrans_snd_minDur minDur r evStart prev, ih]
    · dsimp only
      rw [List.filter_append, List.filter_append,
        ← presenceTrans_fst_minDur minDur hmd,
        ← presenceFlush_minDur endT minDur hmd,
        presenceTrans_snd_minDur minDur r none none, ih]

/-- C5: presence events are filtered by min_duration after the duration
is computed: the result for a given min_duration >= 0 is exactly the
unfiltered (min_duration = 0) result restricted to events whose
duration_seconds is at least min_duration, so an event of exactly
min_duration seconds is kept and strictly shorter events are dropped;
the filter applies to open-ended (right-censored) events as well since
they are part of the same computation. -/
theorem claim_C5_min_duration_filter (endT minDur : ℤ) (rows : List PRow)
    (hmd : 0 ≤ minDur) :
    get_presence_events endT minDur rows =
      (get_presence_events endT 0 rows).filter
        (fun e => decide (minDur ≤ e.duration_seconds)) ∧
    (∀ e, e ∈ get_presence_events endT minDur rows ↔
      e ∈ get_presence_events endT 0 rows ∧ minDur ≤ e.duration_seconds) := by
  have h := presenceLoop_minDur endT minDur hmd rows none none none none
  refine ⟨h, ?_⟩
  intro e
  rw [get_presence_events, h]
  simp [List.mem_filter, get_presence_events]

/-- Witness for C5: with min_duration = 300, a 600-second event is kept
and a 200-second event is dropped, matching the filtered unfiltered
result. -/
theorem claim_C5_witness :
    (0 : ℤ) ≤ 300 ∧
    get_presence_events 1000 300
        [⟨"m1", "z1", 0, true⟩, ⟨"m1", "z1", 600, false⟩,
         ⟨"m1", "z1", 700, true⟩, ⟨"m1", "z1", 900, false⟩] =
      (get_presence_events 1000 0
        [⟨"m1", "z1", 0, true⟩, ⟨"m1", "z1", 600, false⟩,
         ⟨"m1", "z1", 700, true⟩, ⟨"m1", "z1", 900, false⟩]).filter
        (fun e => decide ((300:ℤ) ≤ e.duration_seconds)) := by
  refine ⟨by decide, ?_⟩
  exact (claim_C5_min_duration_filter 1000 300
    [⟨"m1", "z1", 0, true⟩, ⟨"m1", "z1", 600, false⟩,
     ⟨"m1", "z1", 700, true⟩, ⟨"m1", "z1", 900, false⟩] (by decide)).1

lemma doorTrans_open_some (r : DoorRow) (evStart : Option ℤ) (prev : Option Bool)
    (hro : r.is_open = true)
    (hinv : prev = some true → ∃ o, evStart = some o) :
    ∃ o, (doorTrans r evStart prev).2 = some o := by
  unfold doorTrans
  cases prev with
  | none => exact ⟨r.timestamp, by simp [hro]⟩
  | some p =>
    cases p with
    | false => exact ⟨r.timestamp, by simp [hro]⟩
    | true =>
      obtain ⟨o, ho⟩ := hinv rfl
      exact ⟨o, by simp [hro, ho]⟩

lemma doorLoop_first_open (endT : ℤ) (s : String) :
    ∀ (rs : List DoorRow) (o : ℤ), (∀ r ∈ rs, r.sensor_id = s) →
      ∃ (e : DoorEvent) (tl : List DoorEvent),
        doorLoop endT (some s) (some o) (some true) rs = e :: tl ∧
        e.opened_at = o ∧ e.sensor_id = s := by
  intro rs
  induction rs with
  | nil =>
    intro o _
    exact ⟨⟨s, o, none, endT - o⟩, [], rfl, rfl, rfl⟩
  | cons r rest ih =>
    intro o hs
    have hr : r.sensor_id = s := hs r (List.mem_cons_self r rest)
    rw [doorLoop, if_pos (by rw [hr])]
    dsimp only
    cases hro : r.is_open with
    | true =>
      have hstep : doorTrans r (some o) (some true) = ([], some o) := by
        simp [doorTrans, hro]
      rw [hstep]
      obtain ⟨e, tl, heq, ho, hsid⟩ := ih o (fun x hx => hs x (List.mem_cons_of_mem r hx))
      exact ⟨e, tl, by simpa using heq, ho, hsid⟩
    | false =>
      have hstep : doorTrans r (some o) (some true) =
          ([{ sensor_id := r.sensor_id, opened_at := o,
              closed_at := some r.timestamp,
              duration_seconds := r.timestamp - o }], none) := by
        simp [doorTrans, hro]
      rw [hstep]
      exact ⟨⟨r.sensor_id, o, some r.timestamp, r.timestamp - o⟩,
        doorLoop endT (some s) none (some false) rest, by simp, rfl, hr⟩

lemma doorLoop_last_censored (endT : ℤ) (s : String) :
    ∀ (rs : List DoorRow) (cur : Option String) (evStart : Option ℤ)
      (prev : Option Bool) (hne : rs ≠ []),
      (∀ r ∈ rs, r.sensor_id = s) →
      (cur = some s → prev = some true → ∃ o, evStart = some o) →
      (rs.getLast hne).is_open = true →
      ∃ (evs : List DoorEvent) (o : ℤ),
        doorLoop endT cur evStart prev rs =
          evs ++ [{ sensor_id := s, opened_at := o, closed_at := none,
                    duration_seconds := endT - o }] := by
  intro rs
  induction rs with
  | nil => intro _ _ _ hne _ _ _; exact absurd rfl hne
  | cons r rest ih =>
    intro cur evStart prev hne hs hinv hlast
    have hr : r.sensor_id = s := hs r (List.mem_cons_self r rest)
    by_cases hc : cur = some r.sensor_id
    · rw [doorLoop, if_pos hc]
      dsimp only
      cases rest with
      | nil =>
        have hro : r.is_open = true := by simpa using hlast
        obtain ⟨o, ho⟩ := doorTrans_open_some r evStart prev hro
          (hinv (by rw [hc, hr]))
        refine ⟨(doorTrans r evStart prev).1, o, ?_⟩
        rw [doorLoop, ho, hc, hr]
        rfl
      | cons r2 rest2 =>
        have hne2 : r2 :: rest2 ≠ [] := by simp
        have hlast2 : ((r2 :: rest2).getLast hne2).is_open = true := by
          rw [← List.getLast_cons hne2]
          exact hlast
        obtain ⟨evs, o, heq⟩ := ih cur (doorTrans r evStart prev).2
          (some r.is_open) hne2
          (fun x hx => hs x (List.mem_cons_of_mem r hx))
          (fun _ hp => doorTrans_open_some r evStart prev (by injection hp)
            (hinv (by rw [hc, hr])))
          hlast2
        refine ⟨(doorTrans r evStart prev).1 ++ evs, o, ?_⟩
        rw [heq, List.append_assoc]
    · rw [doorLoop, if_neg hc]
      dsimp only
      cases rest with
      | nil =>
        have hro : r.is_open = true := by simpa using hlast
        have hstep : (doorTrans r none none).2 = some r.timestamp := by
          simp [doorTrans, hro]
        refine ⟨doorFlush endT cur evStart ++ (doorTrans r none none).1,
          r.timestamp, ?_⟩
        rw [doorLoop, hstep, hr]
        simp [doorFlush]
      | cons r2 rest2 =>
        have hne2 : r2 :: rest2 ≠ [] := by simp
        have hlast2 : ((r2 :: rest2).getLast hne2).is_open = true := by
          rw [← List.getLast_cons hne2]
          exact hlast
        obtain ⟨evs, o, heq⟩ := ih (some r.sensor_id) (doorTrans r none none).2
          (some r.is_open) hne2
          (fun x hx => hs x (List.mem_cons_of_mem r hx))
          (fun _ hp => doorTrans_open_some r none none (by injection hp)
            (by intro h; exact absurd h (by simp)))
          hlast2
        refine ⟨doorFlush endT cur evStart ++ (doorTrans r none none).1 ++ evs,
          o, ?_⟩
        rw [heq]
        simp [List.append_assoc]

lemma presenceTrans_motion_some (minDur endT : ℤ) (r : PRow) (evStart : Option ℤ)
    (prev : Option Bool) (hro : r.motion_detected = true) (hts : r.timestamp ≤ endT)
    (hinv : prev = some true → ∃ o, evStart = some o ∧ o ≤ endT) :
    ∃ o, (presenceTrans minDur r evStart prev).2 = some o ∧ o ≤ endT := by
  unfold presenceTrans
  cases prev with
  | none => exact ⟨r.timestamp, by simp [hro], hts⟩
  | some p =>
    cases p with
    | false => exact ⟨r.timestamp, by simp [hro], hts⟩
    | true =>
      obtain ⟨o, ho, hoe⟩ := hinv rfl
      exact ⟨o, by simp [hro, ho], hoe⟩

lemma presenceLoop_first_open (endT : ℤ) (s : String) :
    ∀ (rs : List PRow) (z : Option String) (o : ℤ),
      (∀ r ∈ rs, r.sensor_id = s) → (∀ r ∈ rs, o ≤ r.timestamp) → o ≤ endT →
      ∃ (e : PresenceEvent) (tl : List PresenceEvent),
        presenceLoop endT 0 (some s) z (some o) (some true) rs = e :: tl ∧
        e.started_at = o ∧ e.sensor_id = s := by
  intro rs
  induction rs with
  | nil =>
    intro z o _ _ hoe
    have hd : (0:ℤ) ≤ endT - o := by omega
    refine ⟨⟨s, z.getD (""), o, none, endT - o,
      decide (SAFETY_CONCERN_THRESHOLD_SECONDS ≤ endT - o)⟩, [], ?_, rfl, rfl⟩
    simp [presenceLoop, presenceFlush, hd]
  | cons r rest ih =>
    intro z o hs hts hoe
    have hr : r.sensor_id = s := hs r (List.mem_cons_self r rest)
    rw [presenceLoop, if_pos (by rw [hr])]
    dsimp only
    cases hro : r.motion_detected with
    | true =>
      have hstep : presenceTrans 0 r (some o) (some true) = ([], some o) := by
        simp [presenceTrans, hro]
      rw [hstep]
      obtain ⟨e, tl, heq, ho, hsid⟩ := ih z o
        (fun x hx => hs x (List.mem_cons_of_mem r hx))
        (fun x hx => hts x (List.mem_cons_of_mem r hx)) hoe
      exact ⟨e, tl, by simpa using heq, ho, hsid⟩
    | false =>
      have hd : (0:ℤ) ≤ r.timestamp - o := by
        have := hts r (List.mem_cons_self r rest)
        omega
      have hstep : presenceTrans 0 r (some o) (some true) =
          ([{ sensor_id := r.sensor_id, zone_id := r.zone_id,
              started_at := o, ended_at := some r.timestamp,
              duration_seconds := r.timestamp - o,
              is_safety_concern :=
                decide (SAFETY_CONCERN_THRESHOLD_SECONDS ≤ r.timestamp - o) }],
           none) := by
        simp [presenceTrans, hro, hd]
      rw [hstep]
      exact ⟨⟨r.sensor_id, r.zone_id, o, some r.timestamp, r.timestamp - o,
        decide (SAFETY_CONCERN_THRESHOLD_SECONDS ≤ r.timestamp - o)⟩,
        presenceLoop endT 0 (some s) z none (some false) rest, by simp, rfl, hr⟩

lemma presenceLoop_last_censored (endT : ℤ) (s : String) :
    ∀ (rs : List PRow) (cur curZone : Option String) (evStart : Option ℤ)
      (prev : Option Bool) (hne : rs ≠ []),
      (∀ r ∈ rs, r.sensor_id = s) → (∀ r ∈ rs, r.timestamp ≤ endT) →
      (cur = some s → prev = some true → ∃ o, evStart = some o ∧ o ≤ endT) →
      (rs.getLast hne).motion_detected = true →
      ∃ (evs : List PresenceEvent) (o : ℤ) (zz : String),
        presenceLoop endT 0 cur curZone evStart prev rs =
          evs ++ [{ sensor_id := s, zone_id := zz, started_at := o,
                    ended_at := none, duration_seconds := endT - o,
                    is_safety_concern :=
                      decide (SAFETY_CONCERN_THRESHOLD_SECONDS ≤ endT - o) }] := by
  intro rs
  induction rs with
  | nil => intro _ _ _ _ hne _ _ _ _; exact absurd rfl hne
  | cons r rest ih =>
    intro cur curZone evStart prev hne hs hts hinv hlast
    have hr : r.sensor_id = s := hs r (List.mem_cons_self r rest)
    have hrt : r.timestamp ≤ endT := hts r (List.mem_cons_self r rest)
    by_cases hc : cur = some r.sensor_id
    · rw [presenceLoop, if_pos hc]
      dsimp only
      cases rest with
      | nil =>
        have hro : r.motion_detected = true := by simpa using hlast
        obtain ⟨o, ho, hoe⟩ := presenceTrans_motion_some 0 endT r evStart prev hro hrt
          (hinv (by rw [hc, hr]))
        have hd : (0:ℤ) ≤ endT - o := by omega
        refine ⟨(presenceTrans 0 r evStart prev).1, o, curZone.getD (""), ?_⟩
        rw [presenceLoop, ho, hc, hr]
        simp [presenceFlush, hd]
      | cons r2 rest2 =>
        have hne2 : r2 :: rest2 ≠ [] := by simp
        have hlast2 : ((r2 :: rest2).getLast hne2).motion_detected = true := by
          rw [← List.getLast_cons hne2]
          exact hlast
        obtain ⟨evs, o, zz, heq⟩ := ih cur curZone (presenceTrans 0 r evStart prev).2
          (some r.motion_detected) hne2
          (fun x hx => hs x (List.mem_cons_of_mem r hx))
          (fun x hx => hts x (List.mem_cons_of_mem r hx))
          (fun _ hp => presenceTrans_motion_some 0 endT r evStart prev
            (by injection hp) hrt (hinv (by rw [hc, hr])))
          hlast2
        refine ⟨(presenceTrans 0 r evStart prev).1 ++ evs, o, zz, ?_⟩
        rw [heq, List.append_assoc]
    · rw [presenceLoop, if_neg hc]
      dsimp only
      cases rest with
      | nil =>
        have hro : r.motion_detected = true := by simpa using hlast
        have hstep : (presenceTrans 0 r none none).2 = some r.timestamp := by
          simp [presenceTrans, hro]
        have hd : (0:ℤ) ≤ endT - r.timestamp := by omega
        refine ⟨presenceFlush endT 0 cur curZone evStart ++
          (presenceTrans 0 r none none).1, r.timestamp, r.zone_id, ?_⟩
        rw [presenceLoop, hstep, hr]
        simp [presenceFlush, hd, List.append_assoc]
      | cons r2 rest2 =>
        have hne2 : r2 :: rest2 ≠ [] := by simp
        have hlast2 : ((r2 :: rest2).getLast hne2).motion_detected = true := by
          rw [← List.getLast_cons hne2]
          exact hlast
        obtain ⟨evs, o, zz, heq⟩ := ih (some r.sensor_id) (some r.zone_id)
          (presenceTrans 0 r none none).2 (some r.motion_detected) hne2
          (fun x hx => hs x (List.mem_cons_of_mem r hx))
          (fun x hx => hts x (List.mem_cons_of_mem r hx))
          (fun _ hp => presenceTrans_motion_some 0 endT r none none
            (by injection hp) hrt (by intro h; exact absurd h (by simp)))
          hlast2
        refine ⟨presenceFlush endT 0 cur curZone evStart ++
          (presenceTrans 0 r none none).1 ++ evs, o, zz, ?_⟩
        rw [heq]
        simp [List.append_assoc]

/-- C3: event windowing is censored at the query boundaries.  For a
sensor whose first in-window sample is already true, the first emitted
event starts at that first sample's timestamp (door and presence); and
when the state is still true at the last in-window sample, the last
emitted event has close = null and duration = query end minus the open
timestamp (door, and presence at the default min_duration of 0). -/
theorem claim_C3_boundary_censoring (endT : ℤ) (s : String) :
    (∀ (r0 : DoorRow) (rest : List DoorRow),
       r0.sensor_id = s → (∀ r ∈ rest, r.sensor_id = s) → r0.is_open = true →
       ∃ (e : DoorEvent) (tl : List DoorEvent),
         get_door_events endT (r0 :: rest) = e :: tl ∧
         e.opened_at = r0.timestamp ∧ e.sensor_id = s) ∧
    (∀ (rs : List DoorRow) (hne : rs ≠ []),
       (∀ r ∈ rs, r.sensor_id = s) → (rs.getLast hne).is_open = true →
       ∃ (evs : List DoorEvent) (o : ℤ),
         get_door_events endT rs =
           evs ++ [{ sensor_id := s, opened_at := o, closed_at := none,
                     duration_seconds := endT - o }]) ∧
    (∀ (r0 : PRow) (rest : List PRow),
       r0.sensor_id = s → (∀ r ∈ rest, r.sensor_id = s) →
       (∀ r ∈ rest, r0.timestamp ≤ r.timestamp) → r0.timestamp ≤ endT →
       r0.motion_detected = true →
       ∃ (e : PresenceEvent) (tl : List PresenceEvent),
         get_presence_events endT 0 (r0 :: rest) = e :: tl ∧
         e.started_at = r0.timestamp ∧ e.sensor_id = s) ∧
    (∀ (rs : List PRow) (hne : rs ≠ []),
       (∀ r ∈ rs, r.sensor_id = s) → (∀ r ∈ rs, r.timestamp ≤ endT) →
       (rs.getLast hne).motion_detected = true →
       ∃ (evs : List PresenceEvent) (o : ℤ) (zz : String),
         get_presence_events endT 0 rs =
           evs ++ [{ sensor_id := s, zone_id := zz, started_at := o,
                     ended_at := none, duration_seconds := endT - o,
                     is_safety_concern :=
                       decide (SAFETY_CONCERN_THRESHOLD_SECONDS ≤ endT - o) }]) := by
  refine ⟨?_, ?_, ?_, ?_⟩
  · intro r0 rest hr0 hrest hro
    rw [get_door_events, doorLoop, if_neg (by simp)]
    dsimp only
    have hstep : doorTrans r0 none none = ([], some r0.timestamp) := by
      simp [doorTrans, hro]
    rw [hstep, hro, hr0]
    obtain ⟨e, tl, heq, ho, hsid⟩ := doorLoop_first_open endT s rest r0.timestamp hrest
    exact ⟨e, tl, by simpa [doorFlush] using heq, ho, hsid⟩
  · intro rs hne hs hlast
    exact doorLoop_last_censored endT s rs none none none hne hs
      (by intro h; exact absurd h (by simp)) hlast
  · intro r0 rest hr0 hrest hts hoe hro
    rw [get_presence_events, presenceLoop, if_neg (by simp)]
    dsimp only
    have hstep : presenceTrans 0 r0 none none = ([], some r0.timestamp) := by
      simp [presenceTrans, hro]
    rw [hstep, hro, hr0]
    obtain ⟨e, tl, heq, ho, hsid⟩ := presenceLoop_first_open endT s rest
      (some r0.zone_id) r0.timestamp hrest hts hoe
    exact ⟨e, tl, by simpa [presenceFlush] using heq, ho, hsid⟩
  · intro rs hne hs hts hlast
    exact presenceLoop_last_censored endT s rs none none none none hne hs hts
      (by intro h; exact absurd h (by simp)) hlast

/-- Witness for C3 at concrete inputs: a door sensor already open at
its first sample, a door sensor still open at its last sample, and the
two corresponding motion-sensor cases. -/
theorem claim_C3_witness :
    (∃ (e : DoorEvent) (tl : List DoorEvent),
       get_door_events 100 [⟨"d1", 5, true⟩, ⟨"d1", 20, false⟩] = e :: tl ∧
       e.opened_at = 5 ∧ e.sensor_id = "d1") ∧
    (∃ (evs : List DoorEvent) (o : ℤ),
       get_door_events 100 [⟨"d1", 0, false⟩, ⟨"d1", 10, true⟩] =
         evs ++ [{ sensor_id := "d1", opened_at := o, closed_at := none,
                   duration_seconds := 100 - o }]) ∧
    (∃ (e : PresenceEvent) (tl : List PresenceEvent),
       get_presence_events 100 0 [⟨"m1", "z1", 5, true⟩, ⟨"m1", "z1", 20, false⟩] =
         e :: tl ∧ e.started_at = 5 ∧ e.sensor_id = "m1") ∧
    (∃ (evs : List PresenceEvent) (o : ℤ) (zz : String),
       get_presence_events 100 0 [⟨"m1", "z1", 0, false⟩, ⟨"m1", "z1", 10, true⟩] =
         evs ++ [{ sensor_id := "m1", zone_id := zz, started_at := o,
                   ended_at := none, duration_seconds := 100 - o,
                   is_safety_concern :=
                     decide (SAFETY_CONCERN_THRESHOLD_SECONDS ≤ 100 - o) }]) := by
  refine ⟨?_, ?_, ?_, ?_⟩
  · exact (claim_C3_boundary_censoring 100 "d1").1 ⟨"d1", 5, true⟩
      [⟨"d1", 20, false⟩] rfl (by decide) rfl
  · exact (claim_C3_boundary_censoring 100 "d1").2.1
      [⟨"d1", 0, false⟩, ⟨"d1", 10, true⟩] (by simp) (by decide) (by decide)
  · exact (claim_C3_boundary_censoring 100 "m1").2.2.1 ⟨"m1", "z1", 5, true⟩
      [⟨"m1", "z1", 20, false⟩] rfl (by decide) (by decide) (by decide) rfl
  · exact (claim_C3_boundary_censoring 100 "m1").2.2.2
      [⟨"m1", "z1", 0, false⟩, ⟨"m1", "z1", 10, true⟩] (by simp) (by decide)
      (by decide) (by decide)

lemma doorLoop_wf (startT endT : ℤ) :
    ∀ (rs : List DoorRow) (s : String) (evStart : Option ℤ) (prev : Option Bool)
      (B : ℤ),
      doorRowsSorted rs →
      (∀ r ∈ rs, startT ≤ r.timestamp ∧ r.timestamp ≤ endT) →
      (∀ r ∈ rs, s ≤ r.sensor_id) →
      (∀ o, evStart = some o → startT ≤ o ∧ o ≤ endT ∧ B ≤ o ∧
        ∀ r ∈ rs, r.sensor_id = s → o ≤ r.timestamp) →
      (∀ r ∈ rs, r.sensor_id = s → B ≤ r.timestamp) →
      (∀ e ∈ doorLoop endT (some s) evStart prev rs,
        doorEventOk e ∧ s ≤ e.sensor_id ∧ (e.sensor_id = s → B ≤ e.opened_at)) ∧
      List.Pairwise doorNonOverlap (doorLoop endT (some s) evStart prev rs) := by
  intro rs
  induction rs with
  | nil =>
    intro s evStart prev B _ _ _ hev _
    constructor
    · intro e he
      cases evStart with
      | none => simp [doorLoop, doorFlush] at he
      | some o =>
        obtain ⟨h1, h2, h3, _⟩ := hev o rfl
        simp [doorLoop, doorFlush] at he
        subst he
        refine ⟨⟨?_, ?_⟩, le_refl s, fun _ => h3⟩
        · intro c hc
          simp at hc
        · simpa using by omega
    · cases evStart with
      | none => simp [doorLoop, doorFlush]
      | some o => simp [doorLoop, doorFlush]
  | cons r rest ih =>
    intro s evStart prev B hsort hwin hsle hev hB
    obtain ⟨hhead, hsort2⟩ := List.pairwise_cons.mp hsort
    have hwr := hwin r (List.mem_cons_self r rest)
    have hwin2 : ∀ x ∈ rest, startT ≤ x.timestamp ∧ x.timestamp ≤ endT :=
      fun x hx => hwin x (List.mem_cons_of_mem r hx)
    by_cases hc : (some s : Option String) = some r.sensor_id
    · have hrs : r.sensor_id = s := (Option.some_injective _ hc).symm
      have hsle2 : ∀ x ∈ rest, s ≤ x.sensor_id :=
        fun x hx => hsle x (List.mem_cons_of_mem r hx)
      have hB2 : ∀ x ∈ rest, x.sensor_id = s → B ≤ x.timestamp :=
        fun x hx hxe => hB x (List.mem_cons_of_mem r hx) hxe
      have hrts : ∀ x ∈ rest, x.sensor_id = s → r.timestamp ≤ x.timestamp := by
        intro x hx hxe
        rcases hhead x hx with h | ⟨-, h⟩
        · rw [hxe, hrs] at h
          exact absurd h (lt_irrefl s)
        · omega
      have hBr : B ≤ r.timestamp := hB r (List.mem_cons_self r rest) hrs
      -- continuation facts for the three possible successor states
      have contA : (∀ e ∈ doorLoop endT (some s) (some r.timestamp)
            (some r.is_open) rest,
          doorEventOk e ∧ s ≤ e.sensor_id ∧ (e.sensor_id = s → B ≤ e.opened_at)) ∧
          List.Pairwise doorNonOverlap
            (doorLoop endT (some s) (some r.timestamp) (some r.is_open) rest) := by
        have h := ih s (some r.timestamp) (some r.is_open) B hsort2 hwin2 hsle2
          (by
            intro o ho
            injection ho with ho
            subst ho
            exact ⟨hwr.1, hwr.2, hBr, hrts⟩)
          hB2
        exact h
      have contB : (∀ e ∈ doorLoop endT (some s) evStart (some r.is_open) rest,
          doorEventOk e ∧ s ≤ e.sensor_id ∧ (e.sensor_id = s → B ≤ e.opened_at)) ∧
          List.Pairwise doorNonOverlap
            (doorLoop endT (some s) evStart (some r.is_open) rest) := by
        refine ih s evStart (some r.is_open) B hsort2 hwin2 hsle2 ?_ hB2
        intro o ho
        obtain ⟨h1, h2, h3, h4⟩ := hev o ho
        exact ⟨h1, h2, h3, fun x hx hxe => h4 x (List.mem_cons_of_mem r hx) hxe⟩
      have contC : ∀ (B2 : ℤ), (∀ x ∈ rest, x.sensor_id = s → B2 ≤ x.timestamp) →
          (∀ e ∈ doorLoop endT (some s) none (some r.is_open) rest,
            doorEventOk e ∧ s ≤ e.sensor_id ∧ (e.sensor_id = s → B2 ≤ e.opened_at)) ∧
          List.Pairwise doorNonOverlap
            (doorLoop endT (some s) none (some r.is_open) rest) := by
        intro B2 hB2'
        refine ih s none (some r.is_open) B2 hsort2 hwin2 hsle2 ?_ hB2'
        intro o ho
        simp at ho
      rw [doorLoop, if_pos hc]
      dsimp only
      cases prev with
      | none =>
        cases hro : r.is_open with
        | true =>
          have hstep : doorTrans r evStart none = ([], some r.timestamp) := by
            simp [doorTrans, hro]
          rw [hstep]
          rw [hro] at contA
          simpa using contA
        | false =>
          have hstep : doorTrans r evStart none = ([], evStart) := by
            simp [doorTrans, hro]
          rw [hstep]
          rw [hro] at contB
          simpa using contB
      | some p =>
        cases p with
        | false =>
          cases hro : r.is_open with
          | true =>
            have hstep : doorTrans r evStart (some false) = ([], some r.timestamp) := by
              simp [doorTrans, hro]
            rw [hstep]
            rw [hro] at contA
            simpa using contA
          | false =>
            have hstep : doorTrans r evStart (some false) = ([], evStart) := by
              simp [doorTrans, hro]
            rw [hstep]
            rw [hro] at contB
            simpa using contB
        | true =>
          cases hro : r.is_open with
          | true =>
            have hstep : doorTrans r evStart (some true) = ([], evStart) := by
              simp [doorTrans, hro]
            rw [hstep]
            rw [hro] at contB
            simpa using contB
          | false =>
            cases evStart with
            | none =>
              have hstep : doorTrans r none (some true) = ([], none) := by
                simp [doorTrans, hro]
              rw [hstep]
              rw [hro] at contC
              simpa using contC B hB2
            | some o =>
              obtain ⟨ho1, ho2, ho3, ho4⟩ := hev o rfl
              have hor : o ≤ r.timestamp := ho4 r (List.mem_cons_self r rest) hrs
              have hstep : doorTrans r (some o) (some true) =
                  ([{ sensor_id := r.sensor_id, opened_at := o,
                      closed_at := some r.timestamp,
                      duration_seconds := r.timestamp - o }], none) := by
                simp [doorTrans, hro]
              rw [hstep]
              rw [hro] at contC
              have hcont := contC r.timestamp hrts
              constructor
              · intro e he
                rcases List.mem_cons.mp (by simpa using he) with he0 | he1
                · subst he0
                  refine ⟨⟨?_, ?_⟩, ?_, ?_⟩
                  · intro c hcc
                    have hcr : r.timestamp = c := by simpa using hcc
                    show o ≤ c
                    omega
                  · show (0:ℤ) ≤ r.timestamp - o
                    omega
                  · show s ≤ r.sensor_id
                    exact hsle r (List.mem_cons_self r rest)
                  · intro _
                    show B ≤ o
                    exact ho3
                · obtain ⟨hok, hsl, hbb⟩ := hcont.1 e he1
                  exact ⟨hok, hsl, fun hes => le_trans hBr (hbb hes)⟩
              · refine List.pairwise_cons.mpr ⟨?_, hcont.2⟩
                intro b hb hbs
                have hbs3 : r.sensor_id = b.sensor_id := hbs
                have hbs2 : b.sensor_id = s := by
                  rw [← hbs3]
                  exact hrs
                obtain ⟨hok, hsl, hbb⟩ := hcont.1 b hb
                have hrb : r.timestamp ≤ b.opened_at := hbb hbs2
                refine ⟨⟨r.timestamp, rfl, hrb⟩, ?_⟩
                show o ≤ b.opened_at
                omega
    · -- sensor switch: r belongs to a strictly later sensor id
      have hne2 : s ≠ r.sensor_id := fun h => hc (by rw [h])
      have hlt : s < r.sensor_id :=
        lt_of_le_of_ne (hsle r (List.mem_cons_self r rest)) hne2
      have hsle2 : ∀ x ∈ rest, r.sensor_id ≤ x.sensor_id := by
        intro x hx
        rcases hhead x hx with h | ⟨h, -⟩
        · exact le_of_lt h
        · exact le_of_eq h
      have hrts2 : ∀ x ∈ rest, x.sensor_id = r.sensor_id →
          r.timestamp ≤ x.timestamp := by
        intro x hx hxe
        rcases hhead x hx with h | ⟨-, h⟩
        · rw [hxe] at h
          exact absurd h (lt_irrefl _)
        · omega
      rw [doorLoop, if_neg hc]
      dsimp only
      cases hro : r.is_open with
      | true =>
        have hstep : doorTrans r none none = ([], some r.timestamp) := by
          simp [doorTrans, hro]
        rw [hstep]
        have hcont := ih r.sensor_id (some r.timestamp) (some true) r.timestamp
          hsort2 hwin2 hsle2
          (by
            intro o2 ho2
            injection ho2 with ho2
            subst ho2
            exact ⟨hwr.1, hwr.2, le_refl _, hrts2⟩)
          hrts2
        cases evStart with
        | none =>
          constructor
          · intro e he
            obtain ⟨hok, hsl2, hbb2⟩ := hcont.1 e (by simpa [doorFlush] using he)
            exact ⟨hok, le_trans (le_of_lt hlt) hsl2,
              fun hes => absurd hes (ne_of_gt (lt_of_lt_of_le hlt hsl2))⟩
          · simpa [doorFlush] using hcont.2
        | some o =>
          obtain ⟨ho1, ho2, ho3, -⟩ := hev o rfl
          constructor
          · intro e he
            have he2 : e = ⟨s, o, none, endT - o⟩ ∨
                e ∈ doorLoop endT (some r.sensor_id) (some r.timestamp)
                  (some true) rest := by
              simpa [doorFlush] using he
            rcases he2 with he0 | he1
            · subst he0
              refine ⟨⟨?_, ?_⟩, ?_, ?_⟩
              · intro c hcc
                simp at hcc
              · show (0:ℤ) ≤ endT - o
                omega
              · show s ≤ s
                exact le_refl s
              · intro _
                show B ≤ o
                exact ho3
            · obtain ⟨hok, hsl2, hbb2⟩ := hcont.1 e he1
              exact ⟨hok, le_trans (le_of_lt hlt) hsl2,
                fun hes => absurd hes (ne_of_gt (lt_of_lt_of_le hlt hsl2))⟩
          · have hpc : List.Pairwise doorNonOverlap
                ((⟨s, o, none, endT - o⟩ : DoorEvent) ::
                  doorLoop endT (some r.sensor_id) (some r.timestamp)
                    (some true) rest) := by
              refine List.pairwise_cons.mpr ⟨?_, hcont.2⟩
              intro b hb hbs
              have hbs3 : s = b.sensor_id := hbs
              have hlt2 : s < b.sensor_id :=
                lt_of_lt_of_le hlt (hcont.1 b hb).2.1
              exact absurd hbs3 (ne_of_lt hlt2)
            simpa [doorFlush] using hpc
      | false =>
        have hstep : doorTrans r none none = ([], none) := by
          simp [doorTrans, hro]
        rw [hstep]
        have hcont := ih r.sensor_id none (some false) r.timestamp
          hsort2 hwin2 hsle2 (by intro o2 ho2; simp at ho2) hrts2
        cases evStart with
        | none =>
          constructor
          · intro e he
            obtain ⟨hok, hsl2, hbb2⟩ := hcont.1 e (by simpa [doorFlush] using he)
            exact ⟨hok, le_trans (le_of_lt hlt) hsl2,
              fun hes => absurd hes (ne_of_gt (lt_of_lt_of_le hlt hsl2))⟩
          · simpa [doorFlush] using hcont.2
        | some o =>
          obtain ⟨ho1, ho2, ho3, -⟩ := hev o rfl
          constructor
          · intro e he
            have he2 : e = ⟨s, o, none, endT - o⟩ ∨
                e ∈ doorLoop endT (some r.sensor_id) none (some false) rest := by
              simpa [doorFlush] using he
            rcases he2 with he0 | he1
            · subst he0
              refine ⟨⟨?_, ?_⟩, ?_, ?_⟩
              · intro c hcc
                simp at hcc
              · show (0:ℤ) ≤ endT - o
                omega
              · show s ≤ s
                exact le_refl s
              · intro _
                show B ≤ o
                exact ho3
            · obtain ⟨hok, hsl2, hbb2⟩ := hcont.1 e he1
              exact ⟨hok, le_trans (le_of_lt hlt) hsl2,
                fun hes => absurd hes (ne_of_gt (lt_of_lt_of_le hlt hsl2))⟩
          · have hpc : List.Pairwise doorNonOverlap
                ((⟨s, o, none, endT - o⟩ : DoorEvent) ::
                  doorLoop endT (some r.sensor_id) none (some false) rest) := by
              refine List.pairwise_cons.mpr ⟨?_, hcont.2⟩
              intro b hb hbs
              have hbs3 : s = b.sensor_id := hbs
              have hlt2 : s < b.sensor_id :=
                lt_of_lt_of_le hlt (hcont.1 b hb).2.1
              exact absurd hbs3 (ne_of_lt hlt2)
            simpa [doorFlush] using hpc

lemma get_door_events_wf (startT endT : ℤ) (rs : List DoorRow)
    (hsort : doorRowsSorted rs)
    (hwin : ∀ r ∈ rs, startT ≤ r.timestamp ∧ r.timestamp ≤ endT) :
    (∀ e ∈ get_door_events endT rs, doorEventOk e) ∧
    List.Pairwise doorNonOverlap (get_door_events endT rs) := by
  cases rs with
  | nil => constructor <;> simp [get_door_events, doorLoop, doorFlush]
  | cons r rest =>
    obtain ⟨hhead, hsort2⟩ := List.pairwise_cons.mp hsort
    have hwr := hwin r (List.mem_cons_self r rest)
    have hwin2 : ∀ x ∈ rest, startT ≤ x.timestamp ∧ x.timestamp ≤ endT :=
      fun x hx => hwin x (List.mem_cons_of_mem r hx)
    have hsle2 : ∀ x ∈ rest, r.sensor_id ≤ x.sensor_id := by
      intro x hx
      rcases hhead x hx with h | ⟨h, -⟩
      · exact le_of_lt h
      · exact le_of_eq h
    have hrts2 : ∀ x ∈ rest, x.sensor_id = r.sensor_id →
        r.timestamp ≤ x.timestamp := by
      intro x hx hxe
      rcases hhead x hx with h | ⟨-, h⟩
      · rw [hxe] at h
        exact absurd h (lt_irrefl _)
      · omega
    rw [get_door_events, doorLoop, if_neg (by simp)]
    dsimp only
    cases hro : r.is_open with
    | true =>
      have hstep : doorTrans r none none = ([], some r.timestamp) := by
        simp [doorTrans, hro]
      rw [hstep]
      have h := doorLoop_wf startT endT rest r.sensor_id (some r.timestamp)
        (some true) r.timestamp hsort2 hwin2 hsle2
        (by
          intro o ho
          injection ho with ho
          subst ho
          exact ⟨hwr.1, hwr.2, le_refl _, hrts2⟩)
        hrts2
      constructor
      · intro e he
        exact (h.1 e (by simpa [doorFlush] using he)).1
      · simpa [doorFlush] using h.2
    | false =>
      have hstep : doorTrans r none none = ([], none) := by
        simp [doorTrans, hro]
      rw [hstep]
      have h := doorLoop_wf startT endT rest r.sensor_id none
        (some false) r.timestamp hsort2 hwin2 hsle2
        (by intro o ho; simp at ho) hrts2
      constructor
      · intro e he
        exact (h.1 e (by simpa [doorFlush] using he)).1
      · simpa [doorFlush] using h.2

lemma presenceLoop_wf (startT endT minDur : ℤ) :
    ∀ (rs : List PRow) (s : String) (curZone : Option String)
      (evStart : Option ℤ) (prev : Option Bool) (B : ℤ),
      prowsSorted rs →
      (∀ r ∈ rs, startT ≤ r.timestamp ∧ r.timestamp ≤ endT) →
      (∀ r ∈ rs, s ≤ r.sensor_id) →
      (∀ o, evStart = some o → startT ≤ o ∧ o ≤ endT ∧ B ≤ o ∧
        ∀ r ∈ rs, r.sensor_id = s → o ≤ r.timestamp) →
      (∀ r ∈ rs, r.sensor_id = s → B ≤ r.timestamp) →
      (∀ e ∈ presenceLoop endT minDur (some s) curZone evStart prev rs,
        presenceEventOk e ∧ s ≤ e.sensor_id ∧
          (e.sensor_id = s → B ≤ e.started_at)) ∧
      List.Pairwise presenceNonOverlap
        (presenceLoop endT minDur (some s) curZone evStart prev rs) := by
  intro rs
  induction rs with
  | nil =>
    intro s curZone evStart prev B _ _ _ hev _
    constructor
    · intro e he
      cases evStart with
      | none => simp [presenceLoop, presenceFlush] at he
      | some o =>
        obtain ⟨h1, h2, h3, _⟩ := hev o rfl
        by_cases hg : minDur ≤ endT - o
        · simp [presenceLoop, presenceFlush, hg] at he
          subst he
          refine ⟨⟨?_, ?_⟩, le_refl s, fun _ => h3⟩
          · intro c hc
            simp at hc
          · simpa using by omega
        · simp [presenceLoop, presenceFlush, hg] at he
    · cases evStart with
      | none => simp [presenceLoop, presenceFlush]
      | some o =>
        by_cases hg : minDur ≤ endT - o <;>
          simp [presenceLoop, presenceFlush, hg]
  | cons r rest ih =>
    intro s curZone evStart prev B hsort hwin hsle hev hB
    obtain ⟨hhead, hsort2⟩ := List.pairwise_cons.mp hsort
    have hwr := hwin r (List.mem_cons_self r rest)
    have hwin2 : ∀ x ∈ rest, startT ≤ x.timestamp ∧ x.timestamp ≤ endT :=
      fun x hx => hwin x (List.mem_cons_of_mem r hx)
    by_cases hc : (some s : Option String) = some r.sensor_id
    · have hrs : r.sensor_id = s := (Option.some_injective _ hc).symm
      have hsle2 : ∀ x ∈ rest, s ≤ x.sensor_id :=
        fun x hx => hsle x (List.mem_cons_of_mem r hx)
      have hB2 : ∀ x ∈ rest, x.sensor_id = s → B ≤ x.timestamp :=
        fun x hx hxe => hB x (List.mem_cons_of_mem r hx) hxe
      have hrts : ∀ x ∈ rest, x.sensor_id = s → r.timestamp ≤ x.timestamp := by
        intro x hx hxe
        rcases hhead x hx with h | ⟨-, h⟩
        · rw [hxe, hrs] at h
          exact absurd h (lt_irrefl s)
        · omega
      have hBr : B ≤ r.timestamp := hB r (List.mem_cons_self r rest) hrs
      have contA : (∀ e ∈ presenceLoop endT minDur (some s) curZone
            (some r.timestamp) (some r.motion_detected) rest,
          presenceEventOk e ∧ s ≤ e.sensor_id ∧
            (e.sensor_id = s → B ≤ e.started_at)) ∧
          List.Pairwise presenceNonOverlap
            (presenceLoop endT minDur (some s) curZone (some r.timestamp)
              (some r.motion_detected) rest) := by
        refine ih s curZone (some r.timestamp) (some r.motion_detected) B
          hsort2 hwin2 hsle2 ?_ hB2
        intro o ho
        injection ho with ho
        subst ho
        exact ⟨hwr.1, hwr.2, hBr, hrts⟩
      have contB : (∀ e ∈ presenceLoop endT minDur (some s) curZone evStart
            (some r.motion_detected) rest,
          presenceEventOk e ∧ s ≤ e.sensor_id ∧
            (e.sensor_id = s → B ≤ e.started_at)) ∧
          List.Pairwise presenceNonOverlap
            (presenceLoop endT minDur (some s) curZone evStart
              (some r.motion_detected) rest) := by
        refine ih s curZone evStart (some r.motion_detected) B
          hsort2 hwin2 hsle2 ?_ hB2
        intro o ho
        obtain ⟨h1, h2, h3, h4⟩ := hev o ho
        exact ⟨h1, h2, h3, fun x hx hxe => h4 x (List.mem_cons_of_mem r hx) hxe⟩
      have contC : ∀ (B2 : ℤ), (∀ x ∈ rest, x.sensor_id = s → B2 ≤ x.timestamp) →
          (∀ e ∈ presenceLoop endT minDur (some s) curZone none
              (some r.motion_detected) rest,
            presenceEventOk e ∧ s ≤ e.sensor_id ∧
              (e.sensor_id = s → B2 ≤ e.started_at)) ∧
          List.Pairwise presenceNonOverlap
            (presenceLoop endT minDur (some s) curZone none
              (some r.motion_detected) rest) := by
        intro B2 hB2x
        refine ih s curZone none (some r.motion_detected) B2
          hsort2 hwin2 hsle2 ?_ hB2x
        intro o ho
        simp at ho
      rw [presenceLoop, if_pos hc]
      dsimp only
      cases prev with
      | none =>
        cases hro : r.motion_detected with
        | true =>
          have hstep : presenceTrans minDur r evStart none =
              ([], some r.timestamp) := by
            simp [presenceTrans, hro]
          rw [hstep]
          rw [hro] at contA
          simpa using contA
        | false =>
          have hstep : presenceTrans minDur r evStart none = ([], evStart) := by
            simp [presenceTrans, hro]
          rw [hstep]
          rw [hro] at contB
          simpa using contB
      | some p =>
        cases p with
        | false =>
          cases hro : r.motion_detected with
          | true =>
            have hstep : presenceTrans minDur r evStart (some false) =
                ([], some r.timestamp) := by
              simp [presenceTrans, hro]
            rw [hstep]
            rw [hro] at contA
            simpa using contA
          | false =>
            have hstep : presenceTrans minDur r evStart (some false) =
                ([], evStart) := by
              simp [presenceTrans, hro]
            rw [hstep]
            rw [hro] at contB
            simpa using contB
        | true =>
          cases hro : r.motion_detected with
          | true =>
            have hstep : presenceTrans minDur r evStart (some true) =
                ([], evStart) := by
              simp [presenceTrans, hro]
            rw [hstep]
            rw [hro] at contB
            simpa using contB
          | false =>
            cases evStart with
            | none =>
              have hstep : presenceTrans minDur r none (some true) =
                  ([], none) := by
                simp [presenceTrans, hro]
              rw [hstep]
              rw [hro] at contC
              simpa using contC B hB2
            | some o =>
              obtain ⟨ho1, ho2, ho3, ho4⟩ := hev o rfl
              have hor : o ≤ r.timestamp := ho4 r (List.mem_cons_self r rest) hrs
              rw [hro] at contC
              have hcont := contC r.timestamp hrts
              by_cases hg : minDur ≤ r.timestamp - o
              · have hstep : presenceTrans minDur r (some o) (some true) =
                    ([{ sensor_id := r.sensor_id, zone_id := r.zone_id,
                        started_at := o, ended_at := some r.timestamp,
                        duration_seconds := r.timestamp - o,
                        is_safety_concern := decide
                          (SAFETY_CONCERN_THRESHOLD_SECONDS ≤ r.timestamp - o) }],
                     none) := by
                  simp [presenceTrans, hro, hg]
                rw [hstep]
                constructor
                · intro e he
                  rcases List.mem_cons.mp (by simpa using he) with he0 | he1
                  · subst he0
                    refine ⟨⟨?_, ?_⟩, ?_, ?_⟩
                    · intro c hcc
                      have hcr : r.timestamp = c := by simpa using hcc
                      show o ≤ c
                      omega
                    · show (0:ℤ) ≤ r.timestamp - o
                      omega
                    · show s ≤ r.sensor_id
                      exact hsle r (List.mem_cons_self r rest)
                    · intro _
                      show B ≤ o
                      exact ho3
                  · obtain ⟨hok, hsl, hbb⟩ := hcont.1 e he1
                    exact ⟨hok, hsl, fun hes => le_trans hBr (hbb hes)⟩
                · refine List.pairwise_cons.mpr ⟨?_, hcont.2⟩
                  intro b hb hbs
                  have hbs3 : r.sensor_id = b.sensor_id := hbs
                  have hbs2 : b.sensor_id = s := by
                    rw [← hbs3]
                    exact hrs
                  obtain ⟨hok, hsl, hbb⟩ := hcont.1 b hb
                  have hrb : r.timestamp ≤ b.started_at := hbb hbs2
                  refine ⟨⟨r.timestamp, rfl, hrb⟩, ?_⟩
                  show o ≤ b.started_at
                  omega
              · have hstep : presenceTrans minDur r (some o) (some true) =
                    ([], none) := by
                  simp [presenceTrans, hro, hg]
                rw [hstep]
                have h2 := contC r.timestamp hrts
                constructor
                · intro e he
                  obtain ⟨hok, hsl, hbb⟩ := h2.1 e (by simpa using he)
                  exact ⟨hok, hsl, fun hes => le_trans hBr (hbb hes)⟩
                · simpa using h2.2
    · have hne2 : s ≠ r.sensor_id := fun h => hc (by rw [h])
      have hlt : s < r.sensor_id :=
        lt_of_le_of_ne (hsle r (List.mem_cons_self r rest)) hne2
      have hsle2 : ∀ x ∈ rest, r.sensor_id ≤ x.sensor_id := by
        intro x hx
        rcases hhead x hx with h | ⟨h, -⟩
        · exact le_of_lt h
        · exact le_of_eq h
      have hrts2 : ∀ x ∈ rest, x.sensor_id = r.sensor_id →
          r.timestamp ≤ x.timestamp := by
        intro x hx hxe
        rcases hhead x hx with h | ⟨-, h⟩
        · rw [hxe] at h
          exact absurd h (lt_irrefl _)
        · omega
      rw [presenceLoop, if_neg hc]
      dsimp only
      cases hro : r.motion_detected with
      | true =>
        have hstep : presenceTrans minDur r none none =
            ([], some r.timestamp) := by
          simp [presenceTrans, hro]
        rw [hstep]
        have hcont := ih r.sensor_id (some r.zone_id) (some r.timestamp)
          (some true) r.timestamp hsort2 hwin2 hsle2
          (by
            intro o2 ho2
            injection ho2 with ho2
            subst ho2
            exact ⟨hwr.1, hwr.2, le_refl _, hrts2⟩)
          hrts2
        cases evStart with
        | none =>
          constructor
          · intro e he
            obtain ⟨hok, hsl2, hbb2⟩ :=
              hcont.1 e (by simpa [presenceFlush] using he)
            exact ⟨hok, le_trans (le_of_lt hlt) hsl2,
              fun hes => absurd hes (ne_of_gt (lt_of_lt_of_le hlt hsl2))⟩
          · simpa [presenceFlush] using hcont.2
        | some o =>
          obtain ⟨ho1, ho2, ho3, -⟩ := hev o rfl
          by_cases hg : minDur ≤ endT - o
          · constructor
            · intro e he
              have he2 : e = ⟨s, curZone.getD (""), o, none, endT - o,
                  decide (SAFETY_CONCERN_THRESHOLD_SECONDS ≤ endT - o)⟩ ∨
                  e ∈ presenceLoop endT minDur (some r.sensor_id)
                    (some r.zone_id) (some r.timestamp) (some true) rest := by
                simpa [presenceFlush, hg] using he
              rcases he2 with he0 | he1
              · subst he0
                refine ⟨⟨?_, ?_⟩, ?_, ?_⟩
                · intro c hcc
                  simp at hcc
                · show (0:ℤ) ≤ endT - o
                  omega
                · show s ≤ s
                  exact le_refl s
                · intro _
                  show B ≤ o
                  exact ho3
              · obtain ⟨hok, hsl2, hbb2⟩ := hcont.1 e he1
                exact ⟨hok, le_trans (le_of_lt hlt) hsl2,
                  fun hes => absurd hes (ne_of_gt (lt_of_lt_of_le hlt hsl2))⟩
            · have hpc : List.Pairwise presenceNonOverlap
                  ((⟨s, curZone.getD (""), o, none, endT - o,
                    decide (SAFETY_CONCERN_THRESHOLD_SECONDS ≤ endT - o)⟩ :
                      PresenceEvent) ::
                    presenceLoop endT minDur (some r.sensor_id)
                      (some r.zone_id) (some r.timestamp) (some true) rest) := by
                refine List.pairwise_cons.mpr ⟨?_, hcont.2⟩
                intro b hb hbs
                have hbs3 : s = b.sensor_id := hbs
                have hlt2 : s < b.sensor_id :=
                  lt_of_lt_of_le hlt (hcont.1 b hb).2.1
                exact absurd hbs3 (ne_of_lt hlt2)
              simpa [presenceFlush, hg] using hpc
          · constructor
            · intro e he
              obtain ⟨hok, hsl2, hbb2⟩ :=
                hcont.1 e (by simpa [presenceFlush, hg] using he)
              exact ⟨hok, le_trans (le_of_lt hlt) hsl2,
                fun hes => absurd hes (ne_of_gt (lt_of_lt_of_le hlt hsl2))⟩
            · simpa [presenceFlush, hg] using hcont.2
      | false =>
        have hstep : presenceTrans minDur r none none = ([], none) := by
          simp [presenceTrans, hro]
        rw [hstep]
        have hcont := ih r.sensor_id (some r.zone_id) none
          (some false) r.timestamp hsort2 hwin2 hsle2
          (by intro o2 ho2; simp at ho2) hrts2
        cases evStart with
        | none =>
          constructor
          · intro e he
            obtain ⟨hok, hsl2, hbb2⟩ :=
              hcont.1 e (by simpa [presenceFlush] using he)
            exact ⟨hok, le_trans (le_of_lt hlt) hsl2,
              fun hes => absurd hes (ne_of_gt (lt_of_lt_of_le hlt hsl2))⟩
          · simpa [presenceFlush] using hcont.2
        | some o =>
          obtain ⟨ho1, ho2, ho3, -⟩ := hev o rfl
          by_cases hg : minDur ≤ endT - o
          · constructor
            · intro e he
              have he2 : e = ⟨s, curZone.getD (""), o, none, endT - o,
                  decide (SAFETY_CONCERN_THRESHOLD_SECONDS ≤ endT - o)⟩ ∨
                  e ∈ presenceLoop endT minDur (some r.sensor_id)
                    (some r.zone_id) none (some false) rest := by
                simpa [presenceFlush, hg] using he
              rcases he2 with he0 | he1
              · subst he0
                refine ⟨⟨?_, ?_⟩, ?_, ?_⟩
                · intro c hcc
                  simp at hcc
                · show (0:ℤ) ≤ endT - o
                  omega
                · show s ≤ s
                  exact le_refl s
                · intro _
                  show B ≤ o
                  exact ho3
              · obtain ⟨hok, hsl2, hbb2⟩ := hcont.1 e he1
                exact ⟨hok, le_trans (le_of_lt hlt) hsl2,
                  fun hes => absurd hes (ne_of_gt (lt_of_lt_of_le hlt hsl2))⟩
            · have hpc : List.Pairwise presenceNonOverlap
                  ((⟨s, curZone.getD (""), o, none, endT - o,
                    decide (SAFETY_CONCERN_THRESHOLD_SECONDS ≤ endT - o)⟩ :
                      PresenceEvent) ::
                    presenceLoop endT minDur (some r.sensor_id)
                      (some r.zone_id) none (some false) rest) := by
                refine List.pairwise_cons.mpr ⟨?_, hcont.2⟩
                intro b hb hbs
                have hbs3 : s = b.sensor_id := hbs
                have hlt2 : s < b.sensor_id :=
                  lt_of_lt_of_le hlt (hcont.1 b hb).2.1
                exact absurd hbs3 (ne_of_lt hlt2)
              simpa [presenceFlush, hg] using hpc
          · constructor
            · intro e he
              obtain ⟨hok, hsl2, hbb2⟩ :=
                hcont.1 e (by simpa [presenceFlush, hg] using he)
              exact ⟨hok, le_trans (le_of_lt hlt) hsl2,
                fun hes => absurd hes (ne_of_gt (lt_of_lt_of_le hlt hsl2))⟩
            · simpa [presenceFlush, hg] using hcont.2

lemma get_presence_events_wf (startT endT minDur : ℤ) (rs : List PRow)
    (hsort : prowsSorted rs)
    (hwin : ∀ r ∈ rs, startT ≤ r.timestamp ∧ r.timestamp ≤ endT) :
    (∀ e ∈ get_presence_events endT minDur rs, presenceEventOk e) ∧
    List.Pairwise presenceNonOverlap (get_presence_events endT minDur rs) := by
  cases rs with
  | nil => constructor <;> simp [get_presence_events, presenceLoop, presenceFlush]
  | cons r rest =>
    obtain ⟨hhead, hsort2⟩ := List.pairwise_cons.mp hsort
    have hwr := hwin r (List.mem_cons_self r rest)
    have hwin2 : ∀ x ∈ rest, startT ≤ x.timestamp ∧ x.timestamp ≤ endT :=
      fun x hx => hwin x (List.mem_cons_of_mem r hx)
    have hsle2 : ∀ x ∈ rest, r.sensor_id ≤ x.sensor_id := by
      intro x hx
      rcases hhead x hx with h | ⟨h, -⟩
      · exact le_of_lt h
      · exact le_of_eq h
    have hrts2 : ∀ x ∈ rest, x.sensor_id = r.sensor_id →
        r.timestamp ≤ x.timestamp := by
      intro x hx hxe
      rcases hhead x hx with h | ⟨-, h⟩
      · rw [hxe] at h
        exact absurd h (lt_irrefl _)
      · omega
    rw [get_presence_events, presenceLoop, if_neg (by simp)]
    dsimp only
    cases hro : r.motion_detected with
    | true =>
      have hstep : presenceTrans minDur r none none = ([], some r.timestamp) := by
        simp [presenceTrans, hro]
      rw [hstep]
      have h := presenceLoop_wf startT endT minDur rest r.sensor_id
        (some r.zone_id) (some r.timestamp) (some true) r.timestamp
        hsort2 hwin2 hsle2
        (by
          intro o ho
          injection ho with ho
          subst ho
          exact ⟨hwr.1, hwr.2, le_refl _, hrts2⟩)
        hrts2
      constructor
      · intro e he
        exact (h.1 e (by simpa [presenceFlush] using he)).1
      · simpa [presenceFlush] using h.2
    | false =>
      have hstep : presenceTrans minDur r none none = ([], none) := by
        simp [presenceTrans, hro]
      rw [hstep]
      have h := presenceLoop_wf startT endT minDur rest r.sensor_id
        (some r.zone_id) none (some false) r.timestamp hsort2 hwin2 hsle2
        (by intro o ho; simp at ho) hrts2
      constructor
      · intro e he
        exact (h.1 e (by simpa [presenceFlush] using he)).1
      · simpa [presenceFlush] using h.2

/-- C10: for inputs sorted by (sensor_id, timestamp) with strictly
increasing per-sensor timestamps, all inside the query window, every
event emitted by get_door_events and get_presence_events has a close no
earlier than its open and a non-negative duration, and for any single
sensor the emitted events are pairwise non-overlapping and in
chronological open order (closed before the next opens). -/
theorem claim_C10_event_invariants (startT endT minDur : ℤ)
    (rs : List DoorRow) (ps : List PRow)
    (hdsort : doorRowsSorted rs)
    (hdwin : ∀ r ∈ rs, startT ≤ r.timestamp ∧ r.timestamp ≤ endT)
    (hpsort : prowsSorted ps)
    (hpwin : ∀ r ∈ ps, startT ≤ r.timestamp ∧ r.timestamp ≤ endT) :
    (∀ e ∈ get_door_events endT rs,
      (∀ c, e.closed_at = some c → e.opened_at ≤ c) ∧ 0 ≤ e.duration_seconds) ∧
    List.Pairwise doorNonOverlap (get_door_events endT rs) ∧
    (∀ e ∈ get_presence_events endT minDur ps,
      (∀ c, e.ended_at = some c → e.started_at ≤ c) ∧ 0 ≤ e.duration_seconds) ∧
    List.Pairwise presenceNonOverlap (get_presence_events endT minDur ps) := by
  obtain ⟨hd1, hd2⟩ := get_door_events_wf startT endT rs hdsort hdwin
  obtain ⟨hp1, hp2⟩ := get_presence_events_wf startT endT minDur ps hpsort hpwin
  exact ⟨hd1, hd2, hp1, hp2⟩

/-- Witness for C10 on a concrete two-sensor door history and a
one-sensor motion history. -/
theorem claim_C10_witness :
    (∀ e ∈ get_door_events 100
        [⟨"d1", 0, false⟩, ⟨"d1", 10, true⟩, ⟨"d1", 25, false⟩,
         ⟨"d1", 30, true⟩, ⟨"d2", 5, true⟩, ⟨"d2", 50, false⟩],
      (∀ c, e.closed_at = some c → e.opened_at ≤ c) ∧ 0 ≤ e.duration_seconds) ∧
    List.Pairwise doorNonOverlap (get_door_events 100
        [⟨"d1", 0, false⟩, ⟨"d1", 10, true⟩, ⟨"d1", 25, false⟩,
         ⟨"d1", 30, true⟩, ⟨"d2", 5, true⟩, ⟨"d2", 50, false⟩]) ∧
    (∀ e ∈ get_presence_events 100 0 [⟨"m1", "z1", 3, true⟩, ⟨"m1", "z1", 9, false⟩],
      (∀ c, e.ended_at = some c → e.started_at ≤ c) ∧ 0 ≤ e.duration_seconds) ∧
    List.Pairwise presenceNonOverlap
      (get_presence_events 100 0 [⟨"m1", "z1", 3, true⟩, ⟨"m1", "z1", 9, false⟩]) := by
  exact claim_C10_event_invariants 0 100 0
    [⟨"d1", 0, false⟩, ⟨"d1", 10, true⟩, ⟨"d1", 25, false⟩,
     ⟨"d1", 30, true⟩, ⟨"d2", 5, true⟩, ⟨"d2", 50, false⟩]
    [⟨"m1", "z1", 3, true⟩, ⟨"m1", "z1", 9, false⟩]
    (by simp [List.pairwise_cons, String.lt_iff_toList_lt] <;> decide)
    (by decide)
    (by simp [List.pairwise_cons, String.lt_iff_toList_lt] <;> decide)
    (by decide)

/-- C7: with no warning threshold the status is "normal"; otherwise it
is "critical" when the value strictly exceeds the critical threshold,
else "warning" when it strictly exceeds the warning threshold, else
"normal" — with strict greater-than in all cases including negative
thresholds: warning -18.0 with value -17.9 gives "warning", value
-18.0 exactly gives "normal", and value -9.9 with critical -10.0 gives
"critical". -/
theorem claim_C7_status_classification (v w c : ℚ) (cOpt : Option ℚ) :
    (compute_status v none cOpt).1 = "normal" ∧
    (compute_status v (some w) (some c)).1 =
      (if c < v then ("critical") else if w < v then ("warning") else ("normal")) ∧
    (compute_status v (some w) none).1 =
      (if w < v then ("warning") else ("normal")) ∧
    (compute_status (-179/10 : ℚ) (some (-18)) (some (-10))).1 = "warning" ∧
    (compute_status (-18 : ℚ) (some (-18)) (some (-10))).1 = "normal" ∧
    (compute_status (-99/10 : ℚ) (some (-18)) (some (-10))).1 = "critical" := by
  refine ⟨rfl, ?_, ?_, ?_, ?_, ?_⟩
  · by_cases h1 : c < v <;> by_cases h2 : w < v <;>
      simp [compute_status, h1, h2, apply_ite] <;> split_ifs <;> rfl
  · by_cases h2 : w < v <;>
      simp [compute_status, h2, apply_ite] <;> split_ifs <;> rfl
  · norm_num [compute_status]
  · norm_num [compute_status]
  · norm_num [compute_status]

lemma sqlAvg_of_ne_nil {l : List ℚ} (h : l ≠ []) : sqlAvg l = some (arithMean l) := by
  cases l with
  | nil => exact absurd rfl h
  | cons a as => rfl

lemma popVariance_nonneg (l : List ℚ) : 0 ≤ popVariance l := by
  unfold popVariance
  apply div_nonneg
  · apply List.sum_nonneg
    intro x hx
    rw [List.mem_map] at hx
    obtain ⟨y, -, rfl⟩ := hx
    positivity
  · positivity

lemma compute_std_dev_eq (db : Database) (t sid : String) (startT endT : ℤ)
    (h : (selectNumRows db t sid startT endT).map (fun r => r.value) ≠ []) :
    _compute_std_dev db t sid startT endT
        (arithMean ((selectNumRows db t sid startT endT).map (fun r => r.value))) =
      popStdDev ((selectNumRows db t sid startT endT).map (fun r => r.value)) := by
  unfold _compute_std_dev
  have hmap : (selectNumRows db t sid startT endT).map
      (fun r => (r.value - arithMean ((selectNumRows db t sid startT endT).map
        (fun r => r.value))) ^ 2) =
      ((selectNumRows db t sid startT endT).map (fun r => r.value)).map
        (fun x => (x - arithMean ((selectNumRows db t sid startT endT).map
          (fun r => r.value))) ^ 2) := by
    rw [List.map_map]
    rfl
  rw [hmap, sqlAvg_of_ne_nil (by simpa using h)]
  have hval : arithMean (((selectNumRows db t sid startT endT).map
      (fun r => r.value)).map
        (fun x => (x - arithMean ((selectNumRows db t sid startT endT).map
          (fun r => r.value))) ^ 2)) =
      popVariance ((selectNumRows db t sid startT endT).map (fun r => r.value)) := by
    simp only [arithMean, popVariance, List.length_map]
  dsimp only
  rw [hval, if_neg (not_lt.mpr (popVariance_nonneg _))]
  rfl

/-- C1: for a known sensor of an aggregation-supporting type with at
least one sample in the trailing hours window (hours positive), the
baseline's mean is the arithmetic mean of the window's samples, its
std_dev is the population standard deviation sqrt(mean((x - mean)^2))
of the same sample set, and all numeric outputs are rounded to 2
decimal places when the sensor's unit is the temperature unit and 1
decimal place otherwise. -/
theorem claim_C1_baseline_mean_stddev (db : Database) (now : ℤ) (sid : String)
    (hours : ℤ) (h0 : 0 < hours) (sensor : SensorRow)
    (hfind : db.sensors.find? (fun s => decide (s.id = sid)) = some sensor)
    (cfg : SensorTypeConfig)
    (hcfg : SENSOR_TYPE_REGISTRY sensor.sensor_type = some cfg)
    (hagg : cfg.supports_aggregation = true)
    (hne : selectNumRows db sensor.sensor_type sid (now - 3600 * hours) now ≠ []) :
    get_sensor_baseline db now sid hours =
      some { sensor_id := sid,
             mean := pyRound (if cfg.unit = "°C" then 2 else 1)
               (arithMean ((selectNumRows db sensor.sensor_type sid
                 (now - 3600 * hours) now).map (fun r => r.value))),
             std_dev := pyRoundR (if cfg.unit = "°C" then 2 else 1)
               (popStdDev ((selectNumRows db sensor.sensor_type sid
                 (now - 3600 * hours) now).map (fun r => r.value))),
             min := pyRound (if cfg.unit = "°C" then 2 else 1)
               ((sqlMin ((selectNumRows db sensor.sensor_type sid
                 (now - 3600 * hours) now).map (fun r => r.value))).getD 0),
             max := pyRound (if cfg.unit = "°C" then 2 else 1)
               ((sqlMax ((selectNumRows db sensor.sensor_type sid
                 (now - 3600 * hours) now).map (fun r => r.value))).getD 0),
             unit := cfg.unit,
             sample_count := ((selectNumRows db sensor.sensor_type sid
               (now - 3600 * hours) now).map (fun r => r.value)).length,
             period_hours := hours } := by
  have hvne : (selectNumRows db sensor.sensor_type sid
      (now - 3600 * hours) now).map (fun r => r.value) ≠ [] := by
    simpa using hne
  unfold get_sensor_baseline
  rw [if_neg (by omega), hfind]
  dsimp only
  rw [hcfg]
  dsimp only
  rw [if_neg (by simp [hagg]), sqlAvg_of_ne_nil hvne]
  dsimp only
  rw [if_neg (by simpa [sqlCount] using hvne)]
  rw [compute_std_dev_eq db sensor.sensor_type sid (now - 3600 * hours) now hvne]
  rfl

/-- Witness for C1 on the sample store: one environmental sensor with
samples 1 and 3 in the trailing 1-hour window ending at time 3600. -/
theorem claim_C1_witness :
    (0 : ℤ) < 1 ∧
    sampleDb.sensors.find? (fun s => decide (s.id = "t1")) =
      some { id := "t1", zone_id := "z1", sensor_type := "environmental",
             label := "Temp", warning_threshold := some (-18),
             critical_threshold := some (-10) } ∧
    SENSOR_TYPE_REGISTRY ("environmental") =
      some { unit := "°C", hasSecondary := true, secondary_unit := some ("%"),
             format_value := none, supports_aggregation := true } ∧
    selectNumRows sampleDb ("environmental") "t1" (3600 - 3600 * 1) 3600 ≠ [] ∧
    get_sensor_baseline sampleDb 3600 "t1" 1 =
      some { sensor_id := "t1",
             mean := pyRound 2 (arithMean ((selectNumRows sampleDb
               ("environmental") "t1" (3600 - 3600 * 1) 3600).map (fun r => r.value))),
             std_dev := pyRoundR 2 (popStdDev ((selectNumRows sampleDb
               ("environmental") "t1" (3600 - 3600 * 1) 3600).map (fun r => r.value))),
             min := pyRound 2 ((sqlMin ((selectNumRows sampleDb
               ("environmental") "t1" (3600 - 3600 * 1) 3600).map
                 (fun r => r.value))).getD 0),
             max := pyRound 2 ((sqlMax ((selectNumRows sampleDb
               ("environmental") "t1" (3600 - 3600 * 1) 3600).map
                 (fun r => r.value))).getD 0),
             unit := "°C",
             sample_count := ((selectNumRows sampleDb ("environmental") "t1"
               (3600 - 3600 * 1) 3600).map (fun r => r.value)).length,
             period_hours := 1 } := by
  refine ⟨by decide, by decide, rfl, by decide, ?_⟩
  exact claim_C1_baseline_mean_stddev sampleDb 3600 "t1" 1 (by decide)
    { id := "t1", zone_id := "z1", sensor_type := "environmental",
      label := "Temp", warning_threshold := some (-18),
      critical_threshold := some (-10) }
    (by decide)
    { unit := "°C", hasSecondary := true, secondary_unit := some ("%"),
      format_value := none, supports_aggregation := true }
    rfl rfl (by decide)

/-- C6 (amended): for every call with a sensor id present in the
sensor table and days >= 1, hourly_baselines returns exactly 24 entries
indexed by hour-of-day 0..23; hours with no matching samples get
mean=0, stddev=0, count=0 rather than being omitted; and for a sensor
of a non-aggregating type the result is 24 zero-filled entries.  (As
stated the claim also covered unknown sensor ids and days <= 0, where
the code returns an empty list — see the counterexample.) -/
theorem claim_C6_hourly_baselines (db : Database) (now : ℤ) (sid : String)
    (days : ℤ) (hdays : 0 < days) (sensor : SensorRow)
    (hfind : db.sensors.find? (fun s => decide (s.id = sid)) = some sensor) :
    (get_hourly_baselines db now sid days).length = 24 ∧
    (∀ h : ℕ, h < 24 → ∃ e, (get_hourly_baselines db now sid days).get? h =
      some e ∧ e.hour = h) ∧
    (∀ h : ℕ, h < 24 →
      (selectNumRows db sensor.sensor_type sid (now - 86400 * days) now).filter
          (fun r => decide (hourOfDay r.timestamp = (h : ℤ))) = [] →
      (get_hourly_baselines db now sid days).get? h =
        some { hour := h, mean := 0, std_dev := 0, sample_count := 0 }) ∧
    (∀ cfg, SENSOR_TYPE_REGISTRY sensor.sensor_type = some cfg →
      cfg.supports_aggregation = false →
      get_hourly_baselines db now sid days =
        (List.range 24).map
          (fun h => { hour := h, mean := 0, std_dev := 0, sample_count := 0 })) := by
  unfold get_hourly_baselines
  rw [if_neg (by omega), hfind]
  dsimp only
  cases hcfg : SENSOR_TYPE_REGISTRY sensor.sensor_type with
  | none =>
    refine ⟨by simp, ?_, ?_, ?_⟩
    · intro h hh
      refine ⟨⟨h, 0, 0, 0⟩, ?_, rfl⟩
      rw [List.get?_map, List.get?_range hh]
      rfl
    · intro h hh _
      rw [List.get?_map, List.get?_range hh]
      rfl
    · intro cfg hcfg2
      exact absurd hcfg2 (by simp)
  | some cfg =>
    dsimp only
    cases hagg : cfg.supports_aggregation with
    | false =>
      rw [if_pos rfl]
      refine ⟨by simp, ?_, ?_, ?_⟩
      · intro h hh
        refine ⟨⟨h, 0, 0, 0⟩, ?_, rfl⟩
        rw [List.get?_map, List.get?_range hh]
        rfl
      · intro h hh _
        rw [List.get?_map, List.get?_range hh]
        rfl
      · intro cfg2 hcfg2 _
        rfl
    | true =>
      rw [if_neg (by simp)]
      refine ⟨by simp, ?_, ?_, ?_⟩
      · intro h hh
        rw [List.get?_map, List.get?_range hh]
        refine ⟨_, rfl, ?_⟩
        dsimp only
        cases sqlAvg (((selectNumRows db sensor.sensor_type sid
            (now - 86400 * days) now).filter
              (fun r => decide (hourOfDay r.timestamp = (h : ℤ)))).map
                (fun r => r.value)) <;> rfl
      · intro h hh hempty
        rw [List.get?_map, List.get?_range hh]
        simp [hempty, sqlAvg]
      · intro cfg2 hcfg2 hagg2
        injection hcfg2 with hcfg2
        subst hcfg2
        rw [hagg] at hagg2
        exact absurd hagg2 (by simp)

/-- Counterexample for C6 as frozen: a call with an unknown sensor id,
or with days = 0, returns an empty list rather than 24 entries. -/
theorem claim_C6_counterexample :
    (get_hourly_baselines
      { sensors := [], zones := [], envReadings := [], airReadings := [],
        doorReadings := [], motionReadings := [] } 0 "m1" 7).length ≠ 24 ∧
    (get_hourly_baselines sampleDb 0 "m1" 0).length ≠ 24 := by
  constructor
  · norm_num [get_hourly_baselines]
  · norm_num [get_hourly_baselines]

/-- Witness for C6 (amended) on the sample store: the motion sensor
(non-aggregating) with days = 7 yields 24 zero-filled entries. -/
theorem claim_C6_witness :
    (0 : ℤ) < 7 ∧
    sampleDb.sensors.find? (fun s => decide (s.id = "m1")) =
      some { id := "m1", zone_id := "z1", sensor_type := "motion",
             label := "Motion", warning_threshold := none,
             critical_threshold := none } ∧
    (get_hourly_baselines sampleDb 0 "m1" 7).length = 24 ∧
    get_hourly_baselines sampleDb 0 "m1" 7 =
      (List.range 24).map
        (fun h => { hour := h, mean := 0, std_dev := 0, sample_count := 0 }) := by
  have h := claim_C6_hourly_baselines sampleDb 0 "m1" 7 (by decide)
    { id := "m1", zone_id := "z1", sensor_type := "motion",
      label := "Motion", warning_threshold := none,
      critical_threshold := none } (by decide)
  refine ⟨by decide, by decide, h.1, ?_⟩
  exact h.2.2.2 ⟨"events", false, none, some _format_motion, false⟩ rfl rfl

lemma lookup_mem {β : Type} (k : String) (v : β) :
    ∀ (l : List (String × β)), l.lookup k = some v → (k, v) ∈ l := by
  intro l
  induction l with
  | nil => intro h; simp [List.lookup] at h
  | cons a as ih =>
    intro h
    obtain ⟨ka, va⟩ := a
    rw [List.lookup] at h
    by_cases hk : k = ka
    · subst hk
      simp at h
      subst h
      exact List.mem_cons_self _ _
    · have hk2 : (k == ka) = false := beq_false_of_ne hk
      rw [hk2] at h
      exact List.mem_cons_of_mem _ (ih h)

lemma dictKeys_aux_mem {α : Type} [DecidableEq α] :
    ∀ (l acc : List α) (x : α),
      x ∈ l.foldl (fun acc x => if x ∈ acc then acc else acc ++ [x]) acc →
      x ∈ acc ∨ x ∈ l := by
  intro l
  induction l with
  | nil =>
    intro acc x hx
    rw [List.foldl_nil] at hx
    exact Or.inl hx
  | cons a as ih =>
    intro acc x hx
    rw [List.foldl_cons] at hx
    rcases ih _ x hx with h | h
    · by_cases ha : a ∈ acc
      · rw [if_pos ha] at h
        exact Or.inl h
      · rw [if_neg ha] at h
        rcases List.mem_append.mp h with h2 | h2
        · exact Or.inl h2
        · simp at h2
          subst h2
          exact Or.inr (List.mem_cons_self _ _)
    · exact Or.inr (List.mem_cons_of_mem a h)

lemma dictKeys_subset {α : Type} [DecidableEq α] (l : List α) :
    ∀ x ∈ dictKeys l, x ∈ l := by
  intro x hx
  rcases dictKeys_aux_mem l [] x hx with h | h
  · simp at h
  · exact h

lemma dictKeys_aux_nodup {α : Type} [DecidableEq α] :
    ∀ (l acc : List α), acc.Nodup →
      (l.foldl (fun acc x => if x ∈ acc then acc else acc ++ [x]) acc).Nodup := by
  intro l
  induction l with
  | nil =>
    intro acc h
    rw [List.foldl_nil]
    exact h
  | cons a as ih =>
    intro acc h
    rw [List.foldl_cons]
    by_cases ha : a ∈ acc
    · rw [if_pos ha]
      exact ih acc h
    · rw [if_neg ha]
      refine ih _ ?_
      simp [List.nodup_append, h, ha]

lemma dictKeys_nodup {α : Type} [DecidableEq α] (l : List α) :
    (dictKeys l).Nodup :=
  dictKeys_aux_nodup l [] (by simp)

lemma nodup_length_le {α : Type} [DecidableEq α] (l m : List α)
    (h1 : l.Nodup) (h2 : ∀ x ∈ l, x ∈ m) : l.length ≤ m.length := by
  calc l.length = l.toFinset.card := (List.toFinset_card_of_nodup h1).symm
    _ ≤ m.toFinset.card := Finset.card_le_card (fun x hx => by
        rw [List.mem_toFinset] at hx ⊢
        exact h2 x hx)
    _ ≤ m.length := m.toFinset_card_le

lemma registry_dom (t : String)
    (h : (SENSOR_TYPE_REGISTRY t).isSome = true) :
    t ∈ ["environmental", "air_quality", "door", "motion"] := by
  unfold SENSOR_TYPE_REGISTRY at h
  by_cases h1 : t = "environmental"
  · simp [h1]
  · by_cases h2 : t = "air_quality"
    · simp [h2]
    · by_cases h3 : t = "door"
      · simp [h3]
      · by_cases h4 : t = "motion"
        · simp [h4]
        · rw [if_neg h1, if_neg h2, if_neg h3, if_neg h4] at h
          simp at h

lemma registry_countP_le_four (l : List String) :
    (dictKeys l).countP (fun t => (SENSOR_TYPE_REGISTRY t).isSome) ≤ 4 := by
  rw [List.countP_eq_length_filter]
  have h := nodup_length_le
    ((dictKeys l).filter (fun t => (SENSOR_TYPE_REGISTRY t).isSome))
    ["environmental", "air_quality", "door", "motion"]
    ((dictKeys_nodup l).filter _)
    (by
      intro x hx
      rw [List.mem_filter] at hx
      exact registry_dom x hx.2)
  simpa using h

lemma registry_countP_le_one (l : List String) (t : String)
    (h : ∀ x ∈ l, x = t) :
    (dictKeys l).countP (fun u => (SENSOR_TYPE_REGISTRY u).isSome) ≤ 1 := by
  rw [List.countP_eq_length_filter]
  have h2 := nodup_length_le
    ((dictKeys l).filter (fun u => (SENSOR_TYPE_REGISTRY u).isSome)) [t]
    ((dictKeys_nodup l).filter _)
    (by
      intro x hx
      rw [List.mem_filter] at hx
      have hx2 := dictKeys_subset l x hx.1
      simp [h x hx2])
  simpa using h2

lemma latestBatchStep_count (db : Database) (sensors : List SensorRow) :
    ∀ (l : List String) (acc : List (String × ℚ × Option ℚ × ℤ) × ℕ),
      (l.foldl (latestBatchStep db sensors) acc).2 =
        acc.2 + l.countP (fun t => (SENSOR_TYPE_REGISTRY t).isSome) := by
  intro l
  induction l with
  | nil => intro acc; simp
  | cons t ts ih =>
    intro acc
    rw [List.foldl_cons, ih, List.countP_cons]
    cases h : SENSOR_TYPE_REGISTRY t with
    | none => simp [latestBatchStep, h]
    | some cfg =>
      simp only [latestBatchStep, h]
      simp
      omega

lemma trendsBatchStep_count (db : Database) (now : ℤ)
    (sensors : List SensorRow) (end_times : List (String × ℤ)) :
    ∀ (l : List String) (acc : List (String × List ℚ) × ℕ),
      (l.foldl (trendsBatchStep db now sensors end_times) acc).2 =
        acc.2 + l.countP (fun t => (SENSOR_TYPE_REGISTRY t).isSome) := by
  intro l
  induction l with
  | nil => intro acc; simp
  | cons t ts ih =>
    intro acc
    rw [List.foldl_cons, ih, List.countP_cons]
    cases h : SENSOR_TYPE_REGISTRY t with
    | none => simp [trendsBatchStep, h]
    | some cfg =>
      simp only [trendsBatchStep, h]
      simp
      omega

lemma latestBatch_mem (db : Database) (sensors : List SensorRow) :
    ∀ (l : List String) (acc : List (String × ℚ × Option ℚ × ℤ) × ℕ)
      (x : String × ℚ × Option ℚ × ℤ),
      x ∈ (l.foldl (latestBatchStep db sensors) acc).1 →
      x ∈ acc.1 ∨ ∃ s ∈ sensors, s.id = x.1 ∧
        (SENSOR_TYPE_REGISTRY s.sensor_type).isSome := by
  intro l
  induction l with
  | nil =>
    intro acc x hx
    rw [List.foldl_nil] at hx
    exact Or.inl hx
  | cons t ts ih =>
    intro acc x hx
    rw [List.foldl_cons] at hx
    rcases ih _ x hx with h | h
    · cases hreg : SENSOR_TYPE_REGISTRY t with
      | none =>
        simp only [latestBatchStep, hreg] at h
        exact Or.inl h
      | some cfg =>
        simp only [latestBatchStep, hreg] at h
        rcases List.mem_append.mp h with h2 | h2
        · exact Or.inl h2
        · rw [List.mem_filterMap] at h2
          obtain ⟨sid, hsid, hfx⟩ := h2
          rw [List.mem_map] at hsid
          obtain ⟨s, hs, hsi⟩ := hsid
          rw [List.mem_filter] at hs
          rw [Option.map_eq_some'] at hfx
          obtain ⟨r, -, hr⟩ := hfx
          refine Or.inr ⟨s, hs.1, ?_, ?_⟩
          · rw [← hr]
            simpa using hsi
          · have hst : s.sensor_type = t := of_decide_eq_true hs.2
            rw [hst, hreg]
            rfl
    · exact Or.inr h

/-- C9: producing the batched latest readings and 24h trends issues a
number of queries bounded by the registry size (4), independent of the
number of sensors; and when all sensors share one sensor type, at most
one query each. -/
theorem claim_C9_batched_queries (db : Database) (now : ℤ)
    (sensors : List SensorRow) (end_times : List (String × ℤ)) :
    (_get_latest_readings_batch db sensors).2 ≤ 4 ∧
    (_get_24h_trends_batch db now sensors end_times).2 ≤ 4 ∧
    (∀ t, (∀ s ∈ sensors, s.sensor_type = t) →
      (_get_latest_readings_batch db sensors).2 ≤ 1 ∧
      (_get_24h_trends_batch db now sensors end_times).2 ≤ 1) := by
  have hl : (_get_latest_readings_batch db sensors).2 =
      (dictKeys (sensors.map (fun s => s.sensor_type))).countP
        (fun t => (SENSOR_TYPE_REGISTRY t).isSome) := by
    unfold _get_latest_readings_batch
    rw [latestBatchStep_count]
    simp
  have ht : (_get_24h_trends_batch db now sensors end_times).2 =
      (dictKeys (sensors.map (fun s => s.sensor_type))).countP
        (fun t => (SENSOR_TYPE_REGISTRY t).isSome) := by
    unfold _get_24h_trends_batch
    rw [trendsBatchStep_count]
    simp
  refine ⟨?_, ?_, ?_⟩
  · rw [hl]
    exact registry_countP_le_four _
  · rw [ht]
    exact registry_countP_le_four _
  · intro t hall
    have hmap : ∀ x ∈ sensors.map (fun s => s.sensor_type), x = t := by
      intro x hx
      rw [List.mem_map] at hx
      obtain ⟨s, hs, rfl⟩ := hx
      exact hall s hs
    constructor
    · rw [hl]
      exact registry_countP_le_one _ t hmap
    · rw [ht]
      exact registry_countP_le_one _ t hmap

/-- Witness for C9: with both sample sensors (two distinct types) the
counts are at most 4; restricting to the motion sensor alone satisfies
the same-type hypothesis and gives at most one query each. -/
theorem claim_C9_witness :
    (_get_latest_readings_batch sampleDb sampleDb.sensors).2 ≤ 4 ∧
    (∀ s ∈ [(⟨"m1", "z1", "motion", "Motion", none, none⟩ : SensorRow)],
      s.sensor_type = "motion") ∧
    (_get_latest_readings_batch sampleDb
      [(⟨"m1", "z1", "motion", "Motion", none, none⟩ : SensorRow)]).2 ≤ 1 ∧
    (_get_24h_trends_batch sampleDb 0
      [(⟨"m1", "z1", "motion", "Motion", none, none⟩ : SensorRow)] []).2 ≤ 1 := by
  have h1 := (claim_C9_batched_queries sampleDb 0 sampleDb.sensors []).1
  have h2 := (claim_C9_batched_queries sampleDb 0
    [(⟨"m1", "z1", "motion", "Motion", none, none⟩ : SensorRow)] []).2.2
    "motion" (by decide)
  exact ⟨h1, by decide, h2.1, h2.2⟩

/-- C8: not-found and unsupported-operation conditions surface as
null/empty results: get_sensor_readings and get_sensor_baseline return
none for an unknown sensor id or a sensor type without a registry
entry, the baseline additionally returns none for a known
non-aggregating type, every entry produced by the batched
latest-reading fetch belongs to a sensor whose type has a registry
entry, and consequently (for well-formed sensor tables with distinct
ids) the unknown-sensor-type failure branch of _build_sensor_config is
unreachable for the sensors that survive the latest-readings filter. -/
theorem claim_C8_not_found_handling (db : Database)
    (now start endT hours : ℤ) (interval : String) (sid : String)
    (sensors : List SensorRow) :
    (db.sensors.find? (fun s => decide (s.id = sid)) = none →
      get_sensor_readings db sid start endT interval = none ∧
      get_sensor_baseline db now sid hours = none) ∧
    (∀ sensor, db.sensors.find? (fun s => decide (s.id = sid)) = some sensor →
      SENSOR_TYPE_REGISTRY sensor.sensor_type = none →
      get_sensor_readings db sid start endT interval = none ∧
      get_sensor_baseline db now sid hours = none) ∧
    (∀ sensor cfg, db.sensors.find? (fun s => decide (s.id = sid)) = some sensor →
      SENSOR_TYPE_REGISTRY sensor.sensor_type = some cfg →
      cfg.supports_aggregation = false →
      get_sensor_baseline db now sid hours = none) ∧
    (∀ x ∈ (_get_latest_readings_batch db sensors).1,
      ∃ s ∈ sensors, s.id = x.1 ∧ (SENSOR_TYPE_REGISTRY s.sensor_type).isSome) ∧
    ((sensors.map (fun s => s.id)).Nodup →
      ∀ s ∈ sensors_with_readings db sensors,
        (SENSOR_TYPE_REGISTRY s.sensor_type).isSome ∧
        ∀ (zone : ZoneRow) (latest : ℚ × Option ℚ × ℤ) (trend : List ℚ)
          (stats : SensorStats),
          (_build_sensor_config s zone latest trend stats).isSome) := by
  refine ⟨?_, ?_, ?_, ?_, ?_⟩
  · intro h
    constructor
    · unfold get_sensor_readings
      rw [h]
    · unfold get_sensor_baseline
      by_cases hh : hours ≤ 0
      · rw [if_pos hh]
      · rw [if_neg hh, h]
  · intro sensor hfind hreg
    constructor
    · unfold get_sensor_readings
      rw [hfind]
      dsimp only
      rw [hreg]
    · unfold get_sensor_baseline
      by_cases hh : hours ≤ 0
      · rw [if_pos hh]
      · rw [if_neg hh, hfind]
        dsimp only
        rw [hreg]
  · intro sensor cfg hfind hreg hagg
    unfold get_sensor_baseline
    by_cases hh : hours ≤ 0
    · rw [if_pos hh]
    · rw [if_neg hh, hfind]
      dsimp only
      rw [hreg]
      dsimp only
      rw [if_pos hagg]
  · intro x hx
    have h := latestBatch_mem db sensors _ ([], 0) x hx
    rcases h with h | h
    · simp at h
    · exact h
  · intro hnodup s hs
    rw [sensors_with_readings, List.mem_filter] at hs
    obtain ⟨hmem, hlook⟩ := hs
    rw [Option.isSome_iff_exists] at hlook
    obtain ⟨v, hv⟩ := hlook
    have hx := lookup_mem s.id v _ hv
    have h4 := latestBatch_mem db sensors _ ([], 0) (s.id, v) hx
    rcases h4 with h4 | h4
    · simp at h4
    · obtain ⟨s2, hs2, hid, hsome⟩ := h4
      have hss : s = s2 := by
        exact List.inj_on_of_nodup_map hnodup hmem hs2 (by simpa using hid.symm)
      subst hss
      refine ⟨hsome, ?_⟩
      rw [Option.isSome_iff_exists] at hsome
      obtain ⟨cfg, hcfg⟩ := hsome
      intro zone latest trend stats
      simp [_build_sensor_config, hcfg]

/-- Witness for C8: an unknown sensor id on the sample store yields
none from both accessors, and the known motion sensor yields none from
the baseline. -/
theorem claim_C8_witness :
    sampleDb.sensors.find? (fun s => decide (s.id = "nope")) = none ∧
    get_sensor_readings sampleDb ("nope") 0 100 "raw" = none ∧
    get_sensor_baseline sampleDb 100 "nope" 24 = none ∧
    get_sensor_baseline sampleDb 100 "m1" 24 = none := by
  have h1 := (claim_C8_not_found_handling sampleDb 100 0 100 24 "raw" "nope" []).1
    (by decide)
  have h3 := (claim_C8_not_found_handling sampleDb 100 0 100 24 "raw" "m1" []).2.2.1
    { id := "m1", zone_id := "z1", sensor_type := "motion",
      label := "Motion", warning_threshold := none,
      critical_threshold := none }
    ⟨"events", false, none, some _format_motion, false⟩
    (by decide) rfl rfl
  exact ⟨by decide, h1.1, h1.2, h3⟩
